import Mathlib

set_option maxHeartbeats 1000000

/-!
Verification of the Savia crowdfunding contract (contracts/hello-world/src/lib.rs).

The contract is embedded shallowly: the Soroban persistent/instance storage
becomes an explicit `ContractState` record of association lists and optional
singleton values, every public entry point becomes a pure function
`args -> ContractState -> Except SaviaError result × ContractState` mirroring
the Rust statement order (each error return carries the state exactly as it
was at that point of the call), and the host-supplied ledger timestamp becomes
an explicit `now : Nat` argument.  Machine integers (`u64`, `u32`) are
modelled as `Nat`; the contract relies on checked arithmetic, so on
non-overflowing inputs the semantics agree.

Identifier generation (`generate_id`, a sha256 over the concatenation of the
input fields, always including a domain counter) is modelled by the inductive
type `Id` whose constructors record exactly the fields the source hashes for
each entity kind.  Two calls hash identical byte strings iff the recorded
fields coincide, so `Id` equality models hash equality under the standard
collision-resistance idealisation.  Authorization (`require_auth`) is a host
facility and is modelled as always succeeding.
-/

namespace Savia

/-- Addresses are abstract; only equality is used by the contract. -/
abbrev Addr := Nat

/-- Soroban strings; only byte length and equality are used. -/
abbrev Str := String

/-- Identifiers produced by generate_id.  Each constructor records the exact
field tuple the source feeds to sha256 for that entity kind (lib.rs lines
218-227, 341-350, 489-498, 555-564); `raw` stands for an arbitrary
caller-supplied 32-byte value that was never produced by generate_id. -/
inductive Id where
  | raw (payload : Nat)
  | campaign (beneficiary : Addr) (title : Str) (goal : Nat) (time : Nat) (counter : Nat)
  | donation (campaignId : Id) (donor : Addr) (gross : Nat) (time : Nat) (counter : Nat)
  | nft (owner : Addr) (campaignId : Id) (donationId : Id) (amount : Nat) (counter : Nat)
  | disbursement (campaignId : Id) (recipient : Addr) (amount : Nat) (milestone : Str) (counter : Nat)
  deriving DecidableEq

/-- Campaign record (lib.rs lines 12-28). -/
structure Campaign where
  id : Id
  title : Str
  description : Str
  beneficiary : Addr
  goal_amount : Nat
  current_amount : Nat
  start_time : Nat
  end_time : Nat
  verified : Bool
  trust_score : Nat
  category : Str
  location : Str
  active : Bool
  deriving DecidableEq

/-- Donation record (lib.rs lines 30-40). -/
structure Donation where
  id : Id
  campaign_id : Id
  donor : Addr
  amount : Nat
  timestamp : Nat
  nft_minted : Bool
  anonymous : Bool
  deriving DecidableEq

/-- Trust score record (lib.rs lines 42-52). -/
structure TrustScore where
  entity : Addr
  score : Nat
  verification_level : Nat
  donation_count : Nat
  total_donated : Nat
  campaigns_created : Nat
  last_updated : Nat
  deriving DecidableEq

/-- NFT badge record (lib.rs lines 54-63). -/
structure NFTBadge where
  id : Id
  owner : Addr
  badge_type : Str
  campaign_id : Option Id
  minted_at : Nat
  metadata_uri : Str
  deriving DecidableEq

/-- Disbursement status (lib.rs lines 78-85). -/
inductive DisbursementStatus where
  | Pending
  | Approved
  | Executed
  | Rejected
  deriving DecidableEq

/-- Disbursement record (lib.rs lines 65-76). -/
structure Disbursement where
  id : Id
  campaign_id : Id
  recipient : Addr
  amount : Nat
  milestone : Str
  status : DisbursementStatus
  created_at : Nat
  executed_at : Option Nat
  deriving DecidableEq

/-- Platform statistics (lib.rs lines 87-95). -/
structure PlatformStats where
  total_campaigns : Nat
  total_donations : Nat
  total_raised : Nat
  total_nfts : Nat
  active_campaigns : Nat
  deriving DecidableEq

/-- Error taxonomy (lib.rs lines 120-137). -/
inductive SaviaError where
  | InvalidFee
  | InvalidGoal
  | InvalidDuration
  | CampaignNotFound
  | CampaignEnded
  | InvalidAmount
  | ScoreExists
  | InsufficientFunds
  | DisbursementNotFound
  | NotApproved
  | Unauthorized
  | CampaignInactive
  | InvalidInput
  | AlreadyInitialized
  deriving DecidableEq

/-- Lookup in an association list, modelling storage get on a keyed namespace. -/
def lookupA {κ β : Type} [DecidableEq κ] : List (κ × β) → κ → Option β
  | [], _ => none
  | (k, v) :: t, k1 => if k1 = k then some v else lookupA t k1

/-- Insert or replace in an association list, modelling storage set. -/
def insertA {κ β : Type} [DecidableEq κ] : List (κ × β) → κ → β → List (κ × β)
  | [], k, v => [(k, v)]
  | (k0, v0) :: t, k, v => if k = k0 then (k, v) :: t else (k0, v0) :: insertA t k v

/-- The whole persistent plus instance storage of the contract.  Entity maps
correspond to the persistent namespace keys, the `Option` fields to the
instance namespace keys of `DataKey` (lib.rs lines 99-116). -/
structure ContractState where
  campaigns : List (Id × Campaign)
  donations : List (Id × Donation)
  trustScores : List (Addr × TrustScore)
  nfts : List (Id × NFTBadge)
  disbursements : List (Id × Disbursement)
  admin : Option Addr
  platformFee : Option Nat
  campaignCounter : Option Nat
  donationCounter : Option Nat
  nftCounter : Option Nat
  disbursementCounter : Option Nat
  stats : Option PlatformStats
  deriving DecidableEq

/-- Storage of a freshly deployed contract: every key is absent. -/
def initState : ContractState :=
  { campaigns := [], donations := [], trustScores := [], nfts := [],
    disbursements := [], admin := none, platformFee := none,
    campaignCounter := none, donationCounter := none, nftCounter := none,
    disbursementCounter := none, stats := none }

/-- Zero statistics, the unwrap_or default of update_stats and get_stats. -/
def emptyStats : PlatformStats :=
  { total_campaigns := 0, total_donations := 0, total_raised := 0,
    total_nfts := 0, active_campaigns := 0 }

/-- update_stats helper (lib.rs lines 687-701). -/
def update_stats (f : PlatformStats → PlatformStats) (s : ContractState) : ContractState :=
  { s with stats := some (f (s.stats.getD emptyStats)) }

/-- get_badge_type helper (lib.rs lines 704-716). -/
def get_badge_type (amount : Nat) : Str :=
  if amount < 1000 then "Bronze Supporter"
  else if amount < 5000 then "Silver Supporter"
  else if amount < 10000 then "Gold Supporter"
  else if amount < 50000 then "Platinum Supporter"
  else "Diamond Supporter"

/-- The freshly created trust score record of create_trust_score, also the
unwrap_or_else default of both score update helpers (lib.rs lines 403-411,
420-428, 449-457). -/
def default_trust_score (entity : Addr) (now : Nat) : TrustScore :=
  { entity := entity, score := 50, verification_level := 0, donation_count := 0,
    total_donated := 0, campaigns_created := 0, last_updated := now }

/-- create_trust_score (lib.rs lines 398-415). -/
def create_trust_score (entity : Addr) (now : Nat) (s : ContractState) :
    Except SaviaError Unit × ContractState :=
  if (lookupA s.trustScores entity).isSome then (.error .ScoreExists, s)
  else
    (.ok (), { s with trustScores := insertA s.trustScores entity (default_trust_score entity now) })

/-- The record written by update_donor_trust_score for a prior record ts0
(lib.rs lines 430-440): counters bumped, then the score recomputed from
the bumped counters and clamped to 100. -/
def donor_ts_step (ts0 : TrustScore) (amount now : Nat) : TrustScore :=
  let dc := ts0.donation_count + 1
  let td := ts0.total_donated + amount
  let donation_factor := min dc 100
  let amount_factor := min (td / 1000) 100
  let consistency_bonus := if dc > 1 then 5 else 0
  let new_score := 50 + donation_factor * 30 / 100 + amount_factor * 15 / 100 + consistency_bonus
  { ts0 with
    score := min new_score 100,
    donation_count := dc,
    total_donated := td,
    last_updated := now }

/-- update_donor_trust_score (lib.rs lines 418-444); the Rust function returns
Result but has no error branch, so it is embedded as a total state update. -/
def update_donor_trust_score (donor : Addr) (amount now : Nat) (s : ContractState) :
    ContractState :=
  { s with
    trustScores := insertA s.trustScores donor
      (donor_ts_step ((lookupA s.trustScores donor).getD (default_trust_score donor now)) amount now) }

/-- The record written by update_beneficiary_trust_score for a prior record
ts0 (lib.rs lines 459-464). -/
def beneficiary_ts_step (ts0 : TrustScore) (now : Nat) : TrustScore :=
  { ts0 with
    campaigns_created := ts0.campaigns_created + 1,
    last_updated := now,
    score := min (ts0.score + min (ts0.campaigns_created + 1) 20) 100 }

/-- update_beneficiary_trust_score (lib.rs lines 447-468); total for the same
reason as the donor variant. -/
def update_beneficiary_trust_score (beneficiary : Addr) (now : Nat) (s : ContractState) :
    ContractState :=
  { s with
    trustScores := insertA s.trustScores beneficiary
      (beneficiary_ts_step ((lookupA s.trustScores beneficiary).getD
        (default_trust_score beneficiary now)) now) }

/-- mint_donation_nft (lib.rs lines 476-524); total, its Result has no error
branch. -/
def mint_donation_nft (owner : Addr) (campaignId donationId : Id) (amount now : Nat)
    (s : ContractState) : ContractState :=
  let newCounter := s.nftCounter.getD 0 + 1
  let nftId := Id.nft owner campaignId donationId amount newCounter
  let badge : NFTBadge :=
    { id := nftId, owner := owner, badge_type := get_badge_type amount,
      campaign_id := some campaignId, minted_at := now,
      metadata_uri := "https://savia.org/nft/metadata" }
  update_stats (fun st => { st with total_nfts := st.total_nfts + 1 })
    { s with nftCounter := some newCounter, nfts := insertA s.nfts nftId badge }

/-- Contract initializer (lib.rs lines 154-183): rejects a second call once
the admin key exists, validates the fee, then writes admin, fee, the four
zeroed counters and zeroed stats.  Named init_platform here. -/
def init_platform (admin : Addr) (platform_fee : Nat) (s : ContractState) :
    Except SaviaError Unit × ContractState :=
  if s.admin.isSome then (.error .AlreadyInitialized, s)
  else if platform_fee > 1000 then (.error .InvalidFee, s)
  else
    (.ok (), { s with
      admin := some admin,
      platformFee := some platform_fee,
      campaignCounter := some 0,
      donationCounter := some 0,
      nftCounter := some 0,
      disbursementCounter := some 0,
      stats := some emptyStats })

/-- The writes of a validated create_campaign call (lib.rs lines 211-268):
counter bump, campaign insert, stats, lazy trust-score creation guarded by a
has-check, beneficiary score update.  The ScoreExists propagation of the
source is kept verbatim even though the guard makes it unreachable. -/
def create_campaign_commit (beneficiary : Addr) (title description : Str)
    (goal_amount duration_days : Nat) (category location : Str) (now : Nat)
    (s : ContractState) : Except SaviaError Id × ContractState :=
  let newCounter := s.campaignCounter.getD 0 + 1
  let campaignId := Id.campaign beneficiary title goal_amount now newCounter
  let end_time := now + duration_days * 24 * 60 * 60
  let campaign : Campaign :=
    { id := campaignId, title := title, description := description,
      beneficiary := beneficiary, goal_amount := goal_amount, current_amount := 0,
      start_time := now, end_time := end_time, verified := false, trust_score := 0,
      category := category, location := location, active := true }
  let s2 : ContractState :=
    { s with
      campaignCounter := some newCounter,
      campaigns := insertA s.campaigns campaignId campaign }
  let s3 := update_stats (fun st =>
    { st with
      total_campaigns := st.total_campaigns + 1,
      active_campaigns := st.active_campaigns + 1 }) s2
  match (if (lookupA s3.trustScores beneficiary).isSome then (Except.ok (), s3)
         else create_trust_score beneficiary now s3) with
  | (Except.error e, s4) => (Except.error e, s4)
  | (Except.ok _, s4) => (Except.ok campaignId, update_beneficiary_trust_score beneficiary now s4)

/-- create_campaign (lib.rs lines 186-269): input validation in source order,
then the committing writes. -/
def create_campaign (beneficiary : Addr) (title description : Str)
    (goal_amount duration_days : Nat) (category location : Str) (now : Nat)
    (s : ContractState) : Except SaviaError Id × ContractState :=
  if goal_amount = 0 then (.error .InvalidGoal, s)
  else if duration_days = 0 ∨ duration_days > 365 then (.error .InvalidDuration, s)
  else if title.length = 0 ∨ description.length = 0 then (.error .InvalidInput, s)
  else create_campaign_commit beneficiary title description goal_amount duration_days
    category location now s

/-- verify_campaign (lib.rs lines 277-300): admin must be configured, the
campaign must exist; sets verified and clamps the supplied score to 100. -/
def verify_campaign (campaignId : Id) (trust_score : Nat) (s : ContractState) :
    Except SaviaError Unit × ContractState :=
  match s.admin with
  | none => (.error .Unauthorized, s)
  | some _ =>
    match lookupA s.campaigns campaignId with
    | none => (.error .CampaignNotFound, s)
    | some campaign =>
      (.ok (), { s with
        campaigns := insertA s.campaigns campaignId
          { campaign with verified := true, trust_score := min trust_score 100 } })

/-- The writes of a validated donate call (lib.rs lines 330-389): fee split,
counter bump, donation insert, campaign credit, stats, donor score update and
the optional NFT mint, in source order. -/
def donate_commit (campaignId : Id) (donor : Addr) (amount : Nat)
    (anonymous mint_nft : Bool) (now : Nat) (campaign : Campaign)
    (s : ContractState) : ContractState :=
  let platform_fee := amount * s.platformFee.getD 200 / 10000
  let net_amount := amount - platform_fee
  let newCounter := s.donationCounter.getD 0 + 1
  let donationId := Id.donation campaignId donor amount now newCounter
  let donation : Donation :=
    { id := donationId, campaign_id := campaignId, donor := donor,
      amount := net_amount, timestamp := now, nft_minted := mint_nft,
      anonymous := anonymous }
  let s2 : ContractState :=
    { s with
      donationCounter := some newCounter,
      campaigns := insertA s.campaigns campaignId
        { campaign with current_amount := campaign.current_amount + net_amount } }
  let s3 : ContractState := { s2 with donations := insertA s2.donations donationId donation }
  let s4 := update_stats (fun st =>
    { st with
      total_donations := st.total_donations + 1,
      total_raised := st.total_raised + net_amount }) s3
  let s5 := update_donor_trust_score donor net_amount now s4
  if mint_nft then mint_donation_nft donor campaignId donationId net_amount now s5 else s5

/-- donate (lib.rs lines 303-390): validation in source order, then the
committing writes; the returned id is the one stored. -/
def donate (campaignId : Id) (donor : Addr) (amount : Nat)
    (anonymous mint_nft : Bool) (now : Nat) (s : ContractState) :
    Except SaviaError Id × ContractState :=
  match lookupA s.campaigns campaignId with
  | none => (.error .CampaignNotFound, s)
  | some campaign =>
    if campaign.active = false then (.error .CampaignInactive, s)
    else if now > campaign.end_time then (.error .CampaignEnded, s)
    else if amount = 0 then (.error .InvalidAmount, s)
    else
      (.ok (Id.donation campaignId donor amount now (s.donationCounter.getD 0 + 1)),
        donate_commit campaignId donor amount anonymous mint_nft now campaign s)

/-- create_disbursement (lib.rs lines 532-585): the campaign must exist and
cover the requested amount; inserts a Pending disbursement. -/
def create_disbursement (campaignId : Id) (recipient : Addr) (amount : Nat)
    (milestone : Str) (now : Nat) (s : ContractState) :
    Except SaviaError Id × ContractState :=
  match lookupA s.campaigns campaignId with
  | none => (.error .CampaignNotFound, s)
  | some campaign =>
    if amount > campaign.current_amount then (.error .InsufficientFunds, s)
    else
      let newCounter := s.disbursementCounter.getD 0 + 1
      let disbursementId := Id.disbursement campaignId recipient amount milestone newCounter
      let disb : Disbursement :=
        { id := disbursementId, campaign_id := campaignId, recipient := recipient,
          amount := amount, milestone := milestone, status := .Pending,
          created_at := now, executed_at := none }
      (.ok disbursementId, { s with
        disbursementCounter := some newCounter,
        disbursements := insertA s.disbursements disbursementId disb })

/-- approve_disbursement (lib.rs lines 588-605): admin must be configured,
the disbursement must exist; sets status to Approved with no check of the
current status. -/
def approve_disbursement (disbursementId : Id) (s : ContractState) :
    Except SaviaError Unit × ContractState :=
  match s.admin with
  | none => (.error .Unauthorized, s)
  | some _ =>
    match lookupA s.disbursements disbursementId with
    | none => (.error .DisbursementNotFound, s)
    | some disb =>
      (.ok (), { s with
        disbursements := insertA s.disbursements disbursementId
          { disb with status := .Approved } })

/-- execute_disbursement (lib.rs lines 608-630): the disbursement must exist
and be Approved; sets status to Executed and records executed_at = now. -/
def execute_disbursement (disbursementId : Id) (now : Nat) (s : ContractState) :
    Except SaviaError Unit × ContractState :=
  match lookupA s.disbursements disbursementId with
  | none => (.error .DisbursementNotFound, s)
  | some disb =>
    if disb.status = DisbursementStatus.Approved then
      (.ok (), { s with
        disbursements := insertA s.disbursements disbursementId
          { disb with status := .Executed, executed_at := some now } })
    else (.error .NotApproved, s)

/-- close_campaign (lib.rs lines 649-673): the campaign must exist and be
active; clears the active flag and decrements active_campaigns saturating
at zero (Nat subtraction). -/
def close_campaign (campaignId : Id) (s : ContractState) :
    Except SaviaError Unit × ContractState :=
  match lookupA s.campaigns campaignId with
  | none => (.error .CampaignNotFound, s)
  | some campaign =>
    if campaign.active = false then (.error .CampaignInactive, s)
    else
      (.ok (), update_stats (fun st =>
        { st with active_campaigns := st.active_campaigns - 1 })
        { s with campaigns := insertA s.campaigns campaignId { campaign with active := false } })

/-- One invocation of a mutating public entry point, with its inputs and the
ledger timestamp the host supplies for the call. -/
inductive Op where
  | init_platform (admin : Addr) (platform_fee : Nat)
  | create_campaign (beneficiary : Addr) (title description : Str)
      (goal_amount duration_days : Nat) (category location : Str) (now : Nat)
  | verify_campaign (campaignId : Id) (trust_score : Nat)
  | donate (campaignId : Id) (donor : Addr) (amount : Nat)
      (anonymous mint_nft : Bool) (now : Nat)
  | create_disbursement (campaignId : Id) (recipient : Addr) (amount : Nat)
      (milestone : Str) (now : Nat)
  | approve_disbursement (disbursementId : Id)
  | execute_disbursement (disbursementId : Id) (now : Nat)
  | close_campaign (campaignId : Id)
  deriving DecidableEq

/-- Run one invocation, erasing the success value. -/
def runOp (s : ContractState) : Op → Except SaviaError Unit × ContractState
  | .init_platform a f => init_platform a f s
  | .create_campaign b t d g dur c l now =>
    match create_campaign b t d g dur c l now s with
    | (Except.ok _, s2) => (Except.ok (), s2)
    | (Except.error e, s2) => (Except.error e, s2)
  | .verify_campaign cid ts => verify_campaign cid ts s
  | .donate cid donor amount anon mn now =>
    match donate cid donor amount anon mn now s with
    | (Except.ok _, s2) => (Except.ok (), s2)
    | (Except.error e, s2) => (Except.error e, s2)
  | .create_disbursement cid r amount m now =>
    match create_disbursement cid r amount m now s with
    | (Except.ok _, s2) => (Except.ok (), s2)
    | (Except.error e, s2) => (Except.error e, s2)
  | .approve_disbursement did => approve_disbursement did s
  | .execute_disbursement did now => execute_disbursement did now s
  | .close_campaign cid => close_campaign cid s

/-- The state transition of one invocation (errors leave the state as the
call left it; the main error-handling theorem shows that is the input state). -/
def applyOp (s : ContractState) (op : Op) : ContractState := (runOp s op).2

/-- Run a sequence of invocations from a state. -/
def runFrom (s : ContractState) (ops : List Op) : ContractState := ops.foldl applyOp s

/-- Run a sequence of invocations on a freshly deployed contract; the states
of the form runOps ops are exactly the reachable states. -/
def runOps (ops : List Op) : ContractState := runFrom initState ops

/-- Sum of the stored net amounts of all donation records referencing one
campaign key. -/
def dsum (l : List (Id × Donation)) (k : Id) : Nat :=
  l.foldr (fun p acc => if p.2.campaign_id = k then p.2.amount + acc else acc) 0

theorem lookupA_insertA {κ β : Type} [DecidableEq κ] (l : List (κ × β)) (k k1 : κ) (v : β) :
    lookupA (insertA l k v) k1 = if k1 = k then some v else lookupA l k1 := by
  induction l with
  | nil => simp [insertA, lookupA]
  | cons p t ih =>
    obtain ⟨k0, v0⟩ := p
    by_cases hk : k = k0
    · subst hk
      by_cases hk1 : k1 = k <;> simp [insertA, lookupA, hk1]
    · by_cases hk1 : k1 = k0
      · have hk1k : ¬ k1 = k := fun h => hk (h.symm.trans hk1)
        simp only [insertA, if_neg hk, lookupA, if_pos hk1, if_neg hk1k]
      · simp [insertA, hk, lookupA, hk1, ih]

theorem lookupA_some_mem {κ β : Type} [DecidableEq κ] {l : List (κ × β)} {k : κ} {v : β}
    (h : lookupA l k = some v) : (k, v) ∈ l := by
  induction l with
  | nil => simp [lookupA] at h
  | cons p t ih =>
    obtain ⟨k0, v0⟩ := p
    by_cases hk : k = k0
    · subst hk
      simp [lookupA] at h
      simp [h]
    · simp [lookupA, hk] at h
      exact List.mem_cons_of_mem _ (ih h)

theorem lookupA_eq_none {κ β : Type} [DecidableEq κ] {l : List (κ × β)} {k : κ}
    (h : ∀ p ∈ l, p.1 ≠ k) : lookupA l k = none := by
  induction l with
  | nil => rfl
  | cons p t ih =>
    obtain ⟨k0, v0⟩ := p
    have hk : k ≠ k0 := fun he => (h (k0, v0) (List.mem_cons_self _ _)) he.symm
    simp only [lookupA, if_neg hk]
    exact ih (fun q hq => h q (List.mem_cons_of_mem _ hq))

theorem mem_insertA {κ β : Type} [DecidableEq κ] {l : List (κ × β)} {k : κ} {v : β}
    {p : κ × β} (hp : p ∈ insertA l k v) : p ∈ l ∨ p = (k, v) := by
  induction l with
  | nil =>
    simp [insertA] at hp
    exact Or.inr hp
  | cons q t ih =>
    obtain ⟨k0, v0⟩ := q
    by_cases hk : k = k0
    · simp only [insertA, if_pos hk] at hp
      rcases List.mem_cons.mp hp with h1 | h1
      · exact Or.inr h1
      · exact Or.inl (List.mem_cons_of_mem _ h1)
    · simp only [insertA, if_neg hk] at hp
      rcases List.mem_cons.mp hp with h1 | h1
      · exact Or.inl (by simp [h1])
      · rcases ih h1 with h2 | h2
        · exact Or.inl (List.mem_cons_of_mem _ h2)
        · exact Or.inr h2

theorem insertA_insertA_same {κ β : Type} [DecidableEq κ] (l : List (κ × β)) (k : κ) (v w : β) :
    insertA (insertA l k v) k w = insertA l k w := by
  induction l with
  | nil => simp [insertA]
  | cons q t ih =>
    obtain ⟨k0, v0⟩ := q
    by_cases hk : k = k0
    · simp [insertA, hk]
    · simp [insertA, hk, ih]

theorem dsum_insertA_fresh (l : List (Id × Donation)) (k0 : Id) (d : Donation) (k : Id)
    (hfresh : ∀ p ∈ l, p.1 ≠ k0) :
    dsum (insertA l k0 d) k = dsum l k + (if d.campaign_id = k then d.amount else 0) := by
  induction l with
  | nil => simp [insertA, dsum]
  | cons q t ih =>
    obtain ⟨k1, d1⟩ := q
    have hk1 : k0 ≠ k1 := fun he => (hfresh (k1, d1) (List.mem_cons_self _ _)) he.symm
    have ih2 := ih (fun p hp => hfresh p (List.mem_cons_of_mem _ hp))
    simp only [insertA, if_neg hk1, dsum, List.foldr_cons] at ih2 ⊢
    by_cases hc : d1.campaign_id = k
    · simp only [if_pos hc]
      omega
    · simp only [if_neg hc]
      omega

theorem dsum_eq_zero {l : List (Id × Donation)} {k : Id}
    (h : ∀ p ∈ l, p.2.campaign_id ≠ k) : dsum l k = 0 := by
  induction l with
  | nil => rfl
  | cons q t ih =>
    have hq : q.2.campaign_id ≠ k := h q (List.mem_cons_self _ _)
    simp only [dsum, List.foldr_cons, if_neg hq] at *
    exact ih (fun p hp => h p (List.mem_cons_of_mem _ hp))

theorem err_state {α σ : Type} {e0 e : SaviaError} {s0 s2 : σ}
    (h : ((Except.error e0 : Except SaviaError α), s0) = (Except.error e, s2)) : s2 = s0 :=
  ((Prod.mk.injEq _ _ _ _).mp h).2.symm

theorem ok_ne_err {α σ : Type} {v : α} {e : SaviaError} {s0 s2 : σ} {P : Prop}
    (h : ((Except.ok v : Except SaviaError α), s0) = (Except.error e, s2)) : P :=
  absurd ((Prod.mk.injEq _ _ _ _).mp h).1 (by simp)

theorem err_ne_ok {α σ : Type} {v : α} {e : SaviaError} {s0 s2 : σ} {P : Prop}
    (h : ((Except.error e : Except SaviaError α), s0) = (Except.ok v, s2)) : P :=
  absurd ((Prod.mk.injEq _ _ _ _).mp h).1 (by simp)

theorem ok_state {α σ : Type} {v0 v : α} {s0 s2 : σ}
    (h : ((Except.ok v0 : Except SaviaError α), s0) = (Except.ok v, s2)) :
    v = v0 ∧ s2 = s0 := by
  have h2 := (Prod.mk.injEq _ _ _ _).mp h
  exact ⟨(Except.ok.inj h2.1).symm, h2.2.symm⟩

/-- The component changes performed by a committed donation. -/
theorem donate_commit_spec (campaignId : Id) (donor : Addr) (amount : Nat)
    (anonymous mint_nft : Bool) (now : Nat) (campaign : Campaign) (s : ContractState) :
    (donate_commit campaignId donor amount anonymous mint_nft now campaign s).campaigns =
      insertA s.campaigns campaignId
        { campaign with current_amount :=
            campaign.current_amount + (amount - amount * s.platformFee.getD 200 / 10000) } ∧
    (donate_commit campaignId donor amount anonymous mint_nft now campaign s).donations =
      insertA s.donations (Id.donation campaignId donor amount now (s.donationCounter.getD 0 + 1))
        { id := Id.donation campaignId donor amount now (s.donationCounter.getD 0 + 1),
          campaign_id := campaignId, donor := donor,
          amount := amount - amount * s.platformFee.getD 200 / 10000, timestamp := now,
          nft_minted := mint_nft, anonymous := anonymous } ∧
    (donate_commit campaignId donor amount anonymous mint_nft now campaign s).trustScores =
      insertA s.trustScores donor
        (donor_ts_step ((lookupA s.trustScores donor).getD (default_trust_score donor now))
          (amount - amount * s.platformFee.getD 200 / 10000) now) ∧
    (donate_commit campaignId donor amount anonymous mint_nft now campaign s).donationCounter =
      some (s.donationCounter.getD 0 + 1) ∧
    (donate_commit campaignId donor amount anonymous mint_nft now campaign s).campaignCounter =
      s.campaignCounter ∧
    (donate_commit campaignId donor amount anonymous mint_nft now campaign s).admin = s.admin ∧
    (donate_commit campaignId donor amount anonymous mint_nft now campaign s).platformFee =
      s.platformFee ∧
    (donate_commit campaignId donor amount anonymous mint_nft now campaign s).disbursements =
      s.disbursements := by
  cases mint_nft <;> exact ⟨rfl, rfl, rfl, rfl, rfl, rfl, rfl, rfl⟩

/-- donate evaluates to success exactly on the validated path, returning the
stored donation id and committing the writes. -/
theorem donate_eq_ok {campaignId : Id} {donor : Addr} {amount : Nat}
    {anonymous mint_nft : Bool} {now : Nat} {s : ContractState} {campaign : Campaign}
    (hc : lookupA s.campaigns campaignId = some campaign)
    (ha : campaign.active = true) (he : ¬ now > campaign.end_time) (hz : amount ≠ 0) :
    donate campaignId donor amount anonymous mint_nft now s =
      (Except.ok (Id.donation campaignId donor amount now (s.donationCounter.getD 0 + 1)),
        donate_commit campaignId donor amount anonymous mint_nft now campaign s) := by
  unfold donate
  rw [hc]
  simp only [ha, if_neg he, if_neg hz]
  simp

/-- Inversion of a successful donate call. -/
theorem donate_ok_inv {campaignId : Id} {donor : Addr} {amount : Nat}
    {anonymous mint_nft : Bool} {now : Nat} {s : ContractState} {did : Id}
    {s2 : ContractState}
    (h : donate campaignId donor amount anonymous mint_nft now s = (Except.ok did, s2)) :
    ∃ campaign, lookupA s.campaigns campaignId = some campaign ∧
      campaign.active = true ∧ ¬ now > campaign.end_time ∧ amount ≠ 0 ∧
      did = Id.donation campaignId donor amount now (s.donationCounter.getD 0 + 1) ∧
      s2 = donate_commit campaignId donor amount anonymous mint_nft now campaign s := by
  unfold donate at h
  split at h
  · exact err_ne_ok h
  · rename_i campaign hc
    split at h
    · exact err_ne_ok h
    · rename_i hact
      split at h
      · exact err_ne_ok h
      · split at h
        · exact err_ne_ok h
        · rename_i hend hz
          obtain ⟨h1, h2⟩ := ok_state h
          exact ⟨campaign, hc, by simpa using hact, hend, hz, h1, h2⟩

/-- donate leaves the state untouched when it returns an error. -/
theorem donate_error {campaignId : Id} {donor : Addr} {amount : Nat}
    {anonymous mint_nft : Bool} {now : Nat} {s : ContractState} {e : SaviaError}
    {s2 : ContractState}
    (h : donate campaignId donor amount anonymous mint_nft now s = (Except.error e, s2)) :
    s2 = s := by
  unfold donate at h
  split at h
  · exact err_state h
  · split at h
    · exact err_state h
    · split at h
      · exact err_state h
      · split at h
        · exact err_state h
        · exact ok_ne_err h

/-- The result and component changes of a committed campaign creation.  The
guarded lazy trust-score creation merges with the beneficiary update into a
single insert of the stepped record. -/
theorem create_campaign_commit_spec (b : Addr) (t d : Str) (g dur : Nat) (c l : Str)
    (now : Nat) (s : ContractState) :
    (create_campaign_commit b t d g dur c l now s).1 =
      Except.ok (Id.campaign b t g now (s.campaignCounter.getD 0 + 1)) ∧
    (create_campaign_commit b t d g dur c l now s).2.campaigns =
      insertA s.campaigns (Id.campaign b t g now (s.campaignCounter.getD 0 + 1))
        { id := Id.campaign b t g now (s.campaignCounter.getD 0 + 1), title := t,
          description := d, beneficiary := b, goal_amount := g, current_amount := 0,
          start_time := now, end_time := now + dur * 24 * 60 * 60, verified := false,
          trust_score := 0, category := c, location := l, active := true } ∧
    (create_campaign_commit b t d g dur c l now s).2.donations = s.donations ∧
    (create_campaign_commit b t d g dur c l now s).2.trustScores =
      insertA s.trustScores b
        (beneficiary_ts_step ((lookupA s.trustScores b).getD (default_trust_score b now)) now) ∧
    (create_campaign_commit b t d g dur c l now s).2.donationCounter = s.donationCounter ∧
    (create_campaign_commit b t d g dur c l now s).2.campaignCounter =
      some (s.campaignCounter.getD 0 + 1) ∧
    (create_campaign_commit b t d g dur c l now s).2.admin = s.admin ∧
    (create_campaign_commit b t d g dur c l now s).2.platformFee = s.platformFee ∧
    (create_campaign_commit b t d g dur c l now s).2.disbursements = s.disbursements := by
  by_cases h : (lookupA s.trustScores b).isSome
  · simp [create_campaign_commit, update_stats, update_beneficiary_trust_score,
      create_trust_score, h]
  · have hnone : lookupA s.trustScores b = none := Option.not_isSome_iff_eq_none.mp h
    simp [create_campaign_commit, update_stats, update_beneficiary_trust_score,
      create_trust_score, hnone, lookupA_insertA, insertA_insertA_same]

/-- create_campaign evaluates to success exactly on the validated path. -/
theorem create_campaign_eq_ok {b : Addr} {t d : Str} {g dur : Nat} {c l : Str}
    {now : Nat} {s : ContractState}
    (hg : g ≠ 0) (hdur : ¬ (dur = 0 ∨ dur > 365)) (hin : ¬ (t.length = 0 ∨ d.length = 0)) :
    create_campaign b t d g dur c l now s = create_campaign_commit b t d g dur c l now s := by
  unfold create_campaign
  rw [if_neg hg, if_neg hdur, if_neg hin]

/-- Inversion of a successful create_campaign call. -/
theorem create_campaign_ok_inv {b : Addr} {t d : Str} {g dur : Nat} {c l : Str}
    {now : Nat} {s : ContractState} {cid : Id} {s2 : ContractState}
    (h : create_campaign b t d g dur c l now s = (Except.ok cid, s2)) :
    g ≠ 0 ∧ ¬ (dur = 0 ∨ dur > 365) ∧ ¬ (t.length = 0 ∨ d.length = 0) ∧
      (Except.ok cid, s2) = create_campaign_commit b t d g dur c l now s := by
  unfold create_campaign at h
  split at h
  · exact err_ne_ok h
  · split at h
    · exact err_ne_ok h
    · split at h
      · exact err_ne_ok h
      · rename_i hg hdur hin
        exact ⟨hg, hdur, hin, h.symm⟩

/-- create_campaign leaves the state untouched when it returns an error. -/
theorem create_campaign_error {b : Addr} {t d : Str} {g dur : Nat} {c l : Str}
    {now : Nat} {s : ContractState} {e : SaviaError} {s2 : ContractState}
    (h : create_campaign b t d g dur c l now s = (Except.error e, s2)) : s2 = s := by
  unfold create_campaign at h
  split at h
  · exact err_state h
  · split at h
    · exact err_state h
    · split at h
      · exact err_state h
      · have hspec := (create_campaign_commit_spec b t d g dur c l now s).1
        rw [h] at hspec
        exact absurd hspec (by simp)

/-- init_platform leaves the state untouched when it returns an error. -/
theorem init_platform_error {a f : Nat} {s : ContractState} {e : SaviaError}
    {s2 : ContractState} (h : init_platform a f s = (Except.error e, s2)) : s2 = s := by
  unfold init_platform at h
  split at h
  · exact err_state h
  · split at h
    · exact err_state h
    · exact ok_ne_err h

/-- verify_campaign leaves the state untouched when it returns an error. -/
theorem verify_campaign_error {cid : Id} {ts : Nat} {s : ContractState} {e : SaviaError}
    {s2 : ContractState} (h : verify_campaign cid ts s = (Except.error e, s2)) : s2 = s := by
  unfold verify_campaign at h
  split at h
  · exact err_state h
  · split at h
    · exact err_state h
    · exact ok_ne_err h

/-- Inversion of a successful verify_campaign call. -/
theorem verify_campaign_ok_inv {cid : Id} {ts : Nat} {s : ContractState} {v : Unit}
    {s2 : ContractState} (h : verify_campaign cid ts s = (Except.ok v, s2)) :
    ∃ a campaign, s.admin = some a ∧ lookupA s.campaigns cid = some campaign ∧
      s2 = { s with
        campaigns := insertA s.campaigns cid
          { campaign with verified := true, trust_score := min ts 100 } } := by
  unfold verify_campaign at h
  split at h
  · exact err_ne_ok h
  · rename_i a ha
    split at h
    · exact err_ne_ok h
    · rename_i campaign hc
      exact ⟨a, campaign, ha, hc, (ok_state h).2⟩

/-- create_disbursement leaves the state untouched when it returns an error. -/
theorem create_disbursement_error {cid : Id} {r : Addr} {amount : Nat} {m : Str}
    {now : Nat} {s : ContractState} {e : SaviaError} {s2 : ContractState}
    (h : create_disbursement cid r amount m now s = (Except.error e, s2)) : s2 = s := by
  unfold create_disbursement at h
  split at h
  · exact err_state h
  · split at h
    · exact err_state h
    · exact ok_ne_err h

/-- Inversion of a successful create_disbursement call. -/
theorem create_disbursement_ok_inv {cid : Id} {r : Addr} {amount : Nat} {m : Str}
    {now : Nat} {s : ContractState} {did : Id} {s2 : ContractState}
    (h : create_disbursement cid r amount m now s = (Except.ok did, s2)) :
    ∃ campaign, lookupA s.campaigns cid = some campaign ∧
      ¬ amount > campaign.current_amount ∧
      did = Id.disbursement cid r amount m (s.disbursementCounter.getD 0 + 1) ∧
      s2 = { s with
        disbursementCounter := some (s.disbursementCounter.getD 0 + 1),
        disbursements := insertA s.disbursements did
          { id := Id.disbursement cid r amount m (s.disbursementCounter.getD 0 + 1),
            campaign_id := cid, recipient := r, amount := amount, milestone := m,
            status := .Pending, created_at := now, executed_at := none } } := by
  unfold create_disbursement at h
  split at h
  · exact err_ne_ok h
  · rename_i campaign hc
    split at h
    · exact err_ne_ok h
    · rename_i hamt
      obtain ⟨h1, h2⟩ := ok_state h
      subst h1
      exact ⟨campaign, hc, hamt, rfl, h2⟩

/-- approve_disbursement leaves the state untouched when it returns an error. -/
theorem approve_disbursement_error {did : Id} {s : ContractState} {e : SaviaError}
    {s2 : ContractState} (h : approve_disbursement did s = (Except.error e, s2)) : s2 = s := by
  unfold approve_disbursement at h
  split at h
  · exact err_state h
  · split at h
    · exact err_state h
    · exact ok_ne_err h

/-- Inversion of a successful approve_disbursement call: the status is set to
Approved whatever it was before. -/
theorem approve_disbursement_ok_inv {did : Id} {s : ContractState} {v : Unit}
    {s2 : ContractState} (h : approve_disbursement did s = (Except.ok v, s2)) :
    ∃ a disb, s.admin = some a ∧ lookupA s.disbursements did = some disb ∧
      s2 = { s with
        disbursements := insertA s.disbursements did
          { disb with status := .Approved } } := by
  unfold approve_disbursement at h
  split at h
  · exact err_ne_ok h
  · rename_i a ha
    split at h
    · exact err_ne_ok h
    · rename_i disb hd
      exact ⟨a, disb, ha, hd, (ok_state h).2⟩

/-- execute_disbursement leaves the state untouched when it returns an error. -/
theorem execute_disbursement_error {did : Id} {now : Nat} {s : ContractState}
    {e : SaviaError} {s2 : ContractState}
    (h : execute_disbursement did now s = (Except.error e, s2)) : s2 = s := by
  unfold execute_disbursement at h
  split at h
  · exact err_state h
  · split at h
    · exact ok_ne_err h
    · exact err_state h

/-- Inversion of a successful execute_disbursement call. -/
theorem execute_disbursement_ok_inv {did : Id} {now : Nat} {s : ContractState} {v : Unit}
    {s2 : ContractState} (h : execute_disbursement did now s = (Except.ok v, s2)) :
    ∃ disb, lookupA s.disbursements did = some disb ∧
      disb.status = DisbursementStatus.Approved ∧
      s2 = { s with
        disbursements := insertA s.disbursements did
          { disb with status := .Executed, executed_at := some now } } := by
  unfold execute_disbursement at h
  split at h
  · exact err_ne_ok h
  · rename_i disb hd
    split at h
    · rename_i hst
      exact ⟨disb, hd, hst, (ok_state h).2⟩
    · exact err_ne_ok h

/-- close_campaign leaves the state untouched when it returns an error. -/
theorem close_campaign_error {cid : Id} {s : ContractState} {e : SaviaError}
    {s2 : ContractState} (h : close_campaign cid s = (Except.error e, s2)) : s2 = s := by
  unfold close_campaign at h
  split at h
  · exact err_state h
  · split at h
    · exact err_state h
    · exact ok_ne_err h

/-- Inversion of a successful close_campaign call. -/
theorem close_campaign_ok_inv {cid : Id} {s : ContractState} {v : Unit}
    {s2 : ContractState} (h : close_campaign cid s = (Except.ok v, s2)) :
    ∃ campaign, lookupA s.campaigns cid = some campaign ∧ campaign.active = true ∧
      s2 = update_stats (fun st => { st with active_campaigns := st.active_campaigns - 1 })
        { s with campaigns := insertA s.campaigns cid { campaign with active := false } } := by
  unfold close_campaign at h
  split at h
  · exact err_ne_ok h
  · rename_i campaign hc
    split at h
    · exact err_ne_ok h
    · rename_i hact
      refine ⟨campaign, hc, ?_, (ok_state h).2⟩
      cases hca : campaign.active
      · exact absurd hca hact
      · rfl

/-- Is the invocation the initializer entry point. -/
def isInitOp : Op → Bool
  | .init_platform .. => true
  | _ => false

/-- Is the invocation a campaign creation or a donation (the entity-creating
calls whose ids embed the campaign or donation counter). -/
def isCDOp : Op → Bool
  | .create_campaign .. => true
  | .donate .. => true
  | _ => false

/-- Is the invocation a donation. -/
def isDonateOp : Op → Bool
  | .donate .. => true
  | _ => false

/-- No initializer call occurs in the list. -/
def noInit (l : List Op) : Bool := l.all (fun op => !isInitOp op)

/-- No initializer call occurs after any campaign creation or donation: the
counters embedded in campaign and donation ids are never reset while records
carrying them exist. -/
def goodTrace : List Op → Bool
  | [] => true
  | op :: rest => (if isCDOp op then noInit rest else true) && goodTrace rest

/-- The referential bookkeeping invariant: every campaign record holds
exactly the sum of the donation records referencing it, donation records
reference existing campaigns, and all donation and campaign keys carry
counters dominated by the current counters (so freshly generated keys are
really fresh). -/
def Inv (s : ContractState) : Prop :=
  (∀ k camp, lookupA s.campaigns k = some camp → camp.current_amount = dsum s.donations k) ∧
  (∀ p ∈ s.donations, lookupA s.campaigns (Prod.snd p).campaign_id ≠ none) ∧
  (∀ p ∈ s.donations, ∃ c dn a t n, Prod.fst p = Id.donation c dn a t n ∧
    n ≤ s.donationCounter.getD 0) ∧
  (∀ p ∈ s.campaigns, ∃ b t g tm n, Prod.fst p = Id.campaign b t g tm n ∧
    n ≤ s.campaignCounter.getD 0)

theorem inv_congr {s s2 : ContractState}
    (hc : s2.campaigns = s.campaigns) (hd : s2.donations = s.donations)
    (hdc : s2.donationCounter = s.donationCounter)
    (hcc : s2.campaignCounter = s.campaignCounter) (h : Inv s) : Inv s2 := by
  obtain ⟨h1, h2, h3, h4⟩ := h
  refine ⟨?_, ?_, ?_, ?_⟩
  · rw [hc, hd]; exact h1
  · rw [hc, hd]; exact h2
  · rw [hd, hdc]; exact h3
  · rw [hc, hcc]; exact h4

/-- Updating an existing campaign without touching its current_amount
preserves the invariant. -/
theorem inv_update_campaign {s : ContractState} {cid : Id} {campaign campUpd : Campaign}
    (h : Inv s) (hc : lookupA s.campaigns cid = some campaign)
    (hcur : campUpd.current_amount = campaign.current_amount)
    {s2 : ContractState}
    (h2c : s2.campaigns = insertA s.campaigns cid campUpd)
    (h2d : s2.donations = s.donations)
    (h2dc : s2.donationCounter = s.donationCounter)
    (h2cc : s2.campaignCounter = s.campaignCounter) : Inv s2 := by
  obtain ⟨h1, h2, h3, h4⟩ := h
  refine ⟨?_, ?_, ?_, ?_⟩
  · intro k camp hk
    rw [h2c, lookupA_insertA] at hk
    rw [h2d]
    by_cases hkc : k = cid
    · rw [if_pos hkc] at hk
      subst hkc
      rw [← Option.some.inj hk, hcur]
      exact h1 k campaign hc
    · rw [if_neg hkc] at hk
      exact h1 k camp hk
  · intro p hp
    rw [h2d] at hp
    rw [h2c, lookupA_insertA]
    by_cases hkc : p.2.campaign_id = cid
    · rw [if_pos hkc]; simp
    · rw [if_neg hkc]; exact h2 p hp
  · rw [h2d, h2dc]; exact h3
  · intro p hp
    rw [h2c] at hp
    rw [h2cc]
    rcases mem_insertA hp with hpo | hpn
    · exact h4 p hpo
    · have hm := lookupA_some_mem hc
      obtain ⟨b, t, g, tm, n, hk, hn⟩ := h4 (cid, campaign) hm
      exact ⟨b, t, g, tm, n, by rw [hpn]; exact hk, hn⟩

/-- Freshly generated donation keys collide with no stored donation key. -/
theorem donation_key_fresh {s : ContractState}
    (h3 : ∀ p ∈ s.donations, ∃ c dn a t n, Prod.fst p = Id.donation c dn a t n ∧
      n ≤ s.donationCounter.getD 0)
    (cid : Id) (donor : Addr) (amount now : Nat) :
    ∀ p ∈ s.donations, Prod.fst p ≠ Id.donation cid donor amount now
      (s.donationCounter.getD 0 + 1) := by
  intro p hp heq
  obtain ⟨c, dn, a, t, n, hpk, hn⟩ := h3 p hp
  rw [hpk] at heq
  injection heq with e1 e2 e3 e4 e5
  omega

/-- Freshly generated campaign keys collide with no stored campaign key. -/
theorem campaign_key_fresh {s : ContractState}
    (h4 : ∀ p ∈ s.campaigns, ∃ b t g tm n, Prod.fst p = Id.campaign b t g tm n ∧
      n ≤ s.campaignCounter.getD 0)
    (b : Addr) (t : Str) (g now : Nat) :
    ∀ p ∈ s.campaigns, Prod.fst p ≠ Id.campaign b t g now
      (s.campaignCounter.getD 0 + 1) := by
  intro p hp heq
  obtain ⟨b0, t0, g0, tm0, n, hpk, hn⟩ := h4 p hp
  rw [hpk] at heq
  injection heq with e1 e2 e3 e4 e5
  omega

/-- A committed donation preserves the invariant. -/
theorem inv_donate_commit {s : ContractState} {campaignId : Id} {campaign : Campaign}
    (h : Inv s) (hc : lookupA s.campaigns campaignId = some campaign)
    (donor : Addr) (amount : Nat) (anonymous mint_nft : Bool) (now : Nat) :
    Inv (donate_commit campaignId donor amount anonymous mint_nft now campaign s) := by
  obtain ⟨h1, h2, h3, h4⟩ := h
  obtain ⟨sc, sd, sts, sdc, scc, sa, spf, sdb⟩ :=
    donate_commit_spec campaignId donor amount anonymous mint_nft now campaign s
  have hfresh := donation_key_fresh h3 campaignId donor amount now
  refine ⟨?_, ?_, ?_, ?_⟩
  · intro k camp hk
    rw [sc, lookupA_insertA] at hk
    rw [sd, dsum_insertA_fresh _ _ _ _ hfresh]
    by_cases hkc : k = campaignId
    · subst hkc
      rw [if_pos rfl] at hk
      rw [← Option.some.inj hk]
      simp [h1 k campaign hc]
    · rw [if_neg hkc] at hk
      have hkc2 : campaignId ≠ k := fun heq => hkc heq.symm
      simp [h1 k camp hk, hkc2]
  · intro p hp
    rw [sd] at hp
    rw [sc, lookupA_insertA]
    rcases mem_insertA hp with hpo | hpn
    · by_cases hkc : p.2.campaign_id = campaignId
      · rw [if_pos hkc]; simp
      · rw [if_neg hkc]; exact h2 p hpo
    · rw [hpn]
      simp
  · intro p hp
    rw [sd] at hp
    rw [sdc]
    rcases mem_insertA hp with hpo | hpn
    · obtain ⟨c, dn, a, t, n, hpk, hn⟩ := h3 p hpo
      exact ⟨c, dn, a, t, n, hpk, by simp only [Option.getD_some]; omega⟩
    · exact ⟨campaignId, donor, amount, now, s.donationCounter.getD 0 + 1,
        by rw [hpn], by simp⟩
  · intro p hp
    rw [sc] at hp
    rw [scc]
    rcases mem_insertA hp with hpo | hpn
    · exact h4 p hpo
    · have hm := lookupA_some_mem hc
      obtain ⟨b, t, g, tm, n, hk, hn⟩ := h4 (campaignId, campaign) hm
      exact ⟨b, t, g, tm, n, by rw [hpn]; exact hk, hn⟩

/-- A committed campaign creation preserves the invariant. -/
theorem inv_create_campaign_commit {s : ContractState} (h : Inv s)
    (b : Addr) (t d : Str) (g dur : Nat) (c l : Str) (now : Nat) :
    Inv (create_campaign_commit b t d g dur c l now s).2 := by
  obtain ⟨h1, h2, h3, h4⟩ := h
  obtain ⟨sr, sc, sd, sts, sdc, scc, sa, spf, sdb⟩ :=
    create_campaign_commit_spec b t d g dur c l now s
  have hfresh := campaign_key_fresh h4 b t g now
  have hnewnone : lookupA s.campaigns
      (Id.campaign b t g now (s.campaignCounter.getD 0 + 1)) = none :=
    lookupA_eq_none hfresh
  refine ⟨?_, ?_, ?_, ?_⟩
  · intro k camp hk
    rw [sc, lookupA_insertA] at hk
    rw [sd]
    by_cases hkc : k = Id.campaign b t g now (s.campaignCounter.getD 0 + 1)
    · rw [if_pos hkc] at hk
      rw [← Option.some.inj hk]
      have hz : dsum s.donations k = 0 := by
        apply dsum_eq_zero
        intro p hp hpk
        exact h2 p hp (by rw [hpk, hkc]; exact hnewnone)
      rw [hz]
    · rw [if_neg hkc] at hk
      exact h1 k camp hk
  · intro p hp
    rw [sd] at hp
    rw [sc, lookupA_insertA]
    by_cases hkc : p.2.campaign_id = Id.campaign b t g now (s.campaignCounter.getD 0 + 1)
    · rw [if_pos hkc]; simp
    · rw [if_neg hkc]; exact h2 p hp
  · rw [sd, sdc]; exact h3
  · intro p hp
    rw [sc] at hp
    rw [scc]
    rcases mem_insertA hp with hpo | hpn
    · obtain ⟨b0, t0, g0, tm0, n, hpk, hn⟩ := h4 p hpo
      exact ⟨b0, t0, g0, tm0, n, hpk, by simp only [Option.getD_some]; omega⟩
    · exact ⟨b, t, g, now, s.campaignCounter.getD 0 + 1, by rw [hpn], by simp⟩

/-- Inversion of a successful init_platform call. -/
theorem init_platform_ok_inv {a f : Nat} {s : ContractState} {v : Unit}
    {s2 : ContractState} (h : init_platform a f s = (Except.ok v, s2)) :
    s.admin = none ∧ ¬ f > 1000 ∧
      s2 = { s with
        admin := some a, platformFee := some f, campaignCounter := some 0,
        donationCounter := some 0, nftCounter := some 0, disbursementCounter := some 0,
        stats := some emptyStats } := by
  unfold init_platform at h
  split at h
  · exact err_ne_ok h
  · rename_i hadm
    split at h
    · exact err_ne_ok h
    · rename_i hf
      refine ⟨Option.not_isSome_iff_eq_none.mp hadm, hf, (ok_state h).2⟩

theorem applyOp_init (s : ContractState) (a f : Nat) :
    applyOp s (Op.init_platform a f) = (init_platform a f s).2 := rfl

theorem applyOp_verify (s : ContractState) (cid : Id) (ts : Nat) :
    applyOp s (Op.verify_campaign cid ts) = (verify_campaign cid ts s).2 := rfl

theorem applyOp_approve (s : ContractState) (did : Id) :
    applyOp s (Op.approve_disbursement did) = (approve_disbursement did s).2 := rfl

theorem applyOp_execute (s : ContractState) (did : Id) (now : Nat) :
    applyOp s (Op.execute_disbursement did now) = (execute_disbursement did now s).2 := rfl

theorem applyOp_close (s : ContractState) (cid : Id) :
    applyOp s (Op.close_campaign cid) = (close_campaign cid s).2 := rfl

theorem applyOp_create_campaign (s : ContractState) (b : Addr) (t d : Str)
    (g dur : Nat) (c l : Str) (now : Nat) :
    applyOp s (Op.create_campaign b t d g dur c l now) =
      (create_campaign b t d g dur c l now s).2 := by
  simp only [applyOp, runOp]
  cases hE : create_campaign b t d g dur c l now s with
  | mk res s2 => cases res <;> rfl

theorem applyOp_donate (s : ContractState) (cid : Id) (donor : Addr) (amount : Nat)
    (anon mn : Bool) (now : Nat) :
    applyOp s (Op.donate cid donor amount anon mn now) =
      (donate cid donor amount anon mn now s).2 := by
  simp only [applyOp, runOp]
  cases hE : donate cid donor amount anon mn now s with
  | mk res s2 => cases res <;> rfl

theorem applyOp_create_disbursement (s : ContractState) (cid : Id) (r : Addr)
    (amount : Nat) (m : Str) (now : Nat) :
    applyOp s (Op.create_disbursement cid r amount m now) =
      (create_disbursement cid r amount m now s).2 := by
  simp only [applyOp, runOp]
  cases hE : create_disbursement cid r amount m now s with
  | mk res s2 => cases res <;> rfl

/-- approve_disbursement never touches campaigns, donations or their counters. -/
theorem approve_frame (did : Id) (s : ContractState) :
    (approve_disbursement did s).2.campaigns = s.campaigns ∧
    (approve_disbursement did s).2.donations = s.donations ∧
    (approve_disbursement did s).2.donationCounter = s.donationCounter ∧
    (approve_disbursement did s).2.campaignCounter = s.campaignCounter := by
  unfold approve_disbursement
  split
  · exact ⟨rfl, rfl, rfl, rfl⟩
  · split
    · exact ⟨rfl, rfl, rfl, rfl⟩
    · exact ⟨rfl, rfl, rfl, rfl⟩

/-- execute_disbursement never touches campaigns, donations or their counters. -/
theorem execute_frame (did : Id) (now : Nat) (s : ContractState) :
    (execute_disbursement did now s).2.campaigns = s.campaigns ∧
    (execute_disbursement did now s).2.donations = s.donations ∧
    (execute_disbursement did now s).2.donationCounter = s.donationCounter ∧
    (execute_disbursement did now s).2.campaignCounter = s.campaignCounter := by
  unfold execute_disbursement
  split
  · exact ⟨rfl, rfl, rfl, rfl⟩
  · split
    · exact ⟨rfl, rfl, rfl, rfl⟩
    · exact ⟨rfl, rfl, rfl, rfl⟩

/-- create_disbursement never touches campaigns, donations or their counters. -/
theorem create_disbursement_frame (cid : Id) (r : Addr) (amount : Nat) (m : Str)
    (now : Nat) (s : ContractState) :
    (create_disbursement cid r amount m now s).2.campaigns = s.campaigns ∧
    (create_disbursement cid r amount m now s).2.donations = s.donations ∧
    (create_disbursement cid r amount m now s).2.donationCounter = s.donationCounter ∧
    (create_disbursement cid r amount m now s).2.campaignCounter = s.campaignCounter := by
  unfold create_disbursement
  split
  · exact ⟨rfl, rfl, rfl, rfl⟩
  · split
    · exact ⟨rfl, rfl, rfl, rfl⟩
    · exact ⟨rfl, rfl, rfl, rfl⟩

/-- init_platform never touches the entity maps. -/
theorem init_platform_frame (a f : Nat) (s : ContractState) :
    (init_platform a f s).2.campaigns = s.campaigns ∧
    (init_platform a f s).2.donations = s.donations ∧
    (init_platform a f s).2.trustScores = s.trustScores ∧
    (init_platform a f s).2.nfts = s.nfts ∧
    (init_platform a f s).2.disbursements = s.disbursements := by
  unfold init_platform
  split
  · exact ⟨rfl, rfl, rfl, rfl, rfl⟩
  · split
    · exact ⟨rfl, rfl, rfl, rfl, rfl⟩
    · exact ⟨rfl, rfl, rfl, rfl, rfl⟩

/-- Every invocation other than the initializer preserves the bookkeeping
invariant. -/
theorem inv_step {s : ContractState} (h : Inv s) (op : Op)
    (hni : isInitOp op = false) : Inv (applyOp s op) := by
  cases op with
  | init_platform a f => simp [isInitOp] at hni
  | create_campaign b t d g dur c l now =>
    rw [applyOp_create_campaign]
    cases hE : create_campaign b t d g dur c l now s with
    | mk res s2 =>
      cases res with
      | error e =>
        show Inv s2
        rw [create_campaign_error hE]
        exact h
      | ok cid =>
        show Inv s2
        obtain ⟨hg, hdur, hin, heq⟩ := create_campaign_ok_inv hE
        have h2 : s2 = (create_campaign_commit b t d g dur c l now s).2 :=
          congrArg Prod.snd heq
        rw [h2]
        exact inv_create_campaign_commit h b t d g dur c l now
  | verify_campaign cid ts =>
    rw [applyOp_verify]
    cases hE : verify_campaign cid ts s with
    | mk res s2 =>
      cases res with
      | error e =>
        show Inv s2
        rw [verify_campaign_error hE]
        exact h
      | ok u =>
        show Inv s2
        obtain ⟨a, campaign, ha, hc, hs2⟩ := verify_campaign_ok_inv hE
        rw [hs2]
        refine inv_update_campaign h hc ?_ rfl rfl rfl rfl
        rfl
  | donate cid donor amount anon mn now =>
    rw [applyOp_donate]
    cases hE : donate cid donor amount anon mn now s with
    | mk res s2 =>
      cases res with
      | error e =>
        show Inv s2
        rw [donate_error hE]
        exact h
      | ok did =>
        show Inv s2
        obtain ⟨campaign, hc, hact, hend, hz, hdid, hs2⟩ := donate_ok_inv hE
        rw [hs2]
        exact inv_donate_commit ⟨h.1, h.2.1, h.2.2.1, h.2.2.2⟩ hc donor amount anon mn now
  | create_disbursement cid r amount m now =>
    rw [applyOp_create_disbursement]
    obtain ⟨f1, f2, f3, f4⟩ := create_disbursement_frame cid r amount m now s
    exact inv_congr f1 f2 f3 f4 h
  | approve_disbursement did =>
    rw [applyOp_approve]
    obtain ⟨f1, f2, f3, f4⟩ := approve_frame did s
    exact inv_congr f1 f2 f3 f4 h
  | execute_disbursement did now =>
    rw [applyOp_execute]
    obtain ⟨f1, f2, f3, f4⟩ := execute_frame did now s
    exact inv_congr f1 f2 f3 f4 h
  | close_campaign cid =>
    rw [applyOp_close]
    cases hE : close_campaign cid s with
    | mk res s2 =>
      cases res with
      | error e =>
        show Inv s2
        rw [close_campaign_error hE]
        exact h
      | ok u =>
        show Inv s2
        obtain ⟨campaign, hc, hact, hs2⟩ := close_campaign_ok_inv hE
        rw [hs2]
        refine inv_update_campaign h hc ?_ rfl rfl rfl rfl
        rfl

/-- On a state with no campaigns and no donations, every invocation that is
not create_campaign or donate keeps both maps empty. -/
theorem clean_step {s : ContractState} (op : Op) (hcd : isCDOp op = false)
    (hc : s.campaigns = []) (hd : s.donations = []) :
    (applyOp s op).campaigns = [] ∧ (applyOp s op).donations = [] := by
  cases op with
  | init_platform a f =>
    obtain ⟨f1, f2, f3, f4, f5⟩ := init_platform_frame a f s
    rw [applyOp_init, f1, f2]
    exact ⟨hc, hd⟩
  | create_campaign b t d g dur c l now => simp [isCDOp] at hcd
  | donate cid donor amount anon mn now => simp [isCDOp] at hcd
  | verify_campaign cid ts =>
    rw [applyOp_verify]
    cases hE : verify_campaign cid ts s with
    | mk res s2 =>
      cases res with
      | error e =>
        show s2.campaigns = [] ∧ s2.donations = []
        rw [verify_campaign_error hE]
        exact ⟨hc, hd⟩
      | ok u =>
        obtain ⟨a, campaign, ha, hck, hs2⟩ := verify_campaign_ok_inv hE
        rw [hc] at hck
        simp [lookupA] at hck
  | create_disbursement cid r amount m now =>
    rw [applyOp_create_disbursement]
    obtain ⟨f1, f2, f3, f4⟩ := create_disbursement_frame cid r amount m now s
    rw [f1, f2]
    exact ⟨hc, hd⟩
  | approve_disbursement did =>
    rw [applyOp_approve]
    obtain ⟨f1, f2, f3, f4⟩ := approve_frame did s
    rw [f1, f2]
    exact ⟨hc, hd⟩
  | execute_disbursement did now =>
    rw [applyOp_execute]
    obtain ⟨f1, f2, f3, f4⟩ := execute_frame did now s
    rw [f1, f2]
    exact ⟨hc, hd⟩
  | close_campaign cid =>
    rw [applyOp_close]
    cases hE : close_campaign cid s with
    | mk res s2 =>
      cases res with
      | error e =>
        show s2.campaigns = [] ∧ s2.donations = []
        rw [close_campaign_error hE]
        exact ⟨hc, hd⟩
      | ok u =>
        obtain ⟨campaign, hck, hact, hs2⟩ := close_campaign_ok_inv hE
        rw [hc] at hck
        simp [lookupA] at hck

/-- The initializer on a state with no campaigns and no donations
establishes the bookkeeping invariant. -/
theorem inv_init_clean {s : ContractState} (hc : s.campaigns = [])
    (hd : s.donations = []) (a f : Nat) : Inv (init_platform a f s).2 := by
  obtain ⟨f1, f2, f3, f4, f5⟩ := init_platform_frame a f s
  refine ⟨?_, ?_, ?_, ?_⟩
  · intro k camp hk
    rw [f1, hc] at hk
    simp [lookupA] at hk
  · intro p hp
    rw [f2, hd] at hp
    simp at hp
  · intro p hp
    rw [f2, hd] at hp
    simp at hp
  · intro p hp
    rw [f1, hc] at hp
    simp at hp

/-- The bookkeeping invariant is preserved by any initializer-free suffix. -/
theorem inv_runFrom_noInit {ops : List Op} {s : ContractState} (h : Inv s)
    (hni : noInit ops = true) : Inv (runFrom s ops) := by
  induction ops generalizing s with
  | nil => exact h
  | cons op rest ih =>
    rw [noInit, List.all_cons, Bool.and_eq_true] at hni
    obtain ⟨h1, h2⟩ := hni
    have h1f : isInitOp op = false := by
      cases hop : isInitOp op
      · rfl
      · rw [hop] at h1; simp at h1
    show Inv (runFrom (applyOp s op) rest)
    exact ih (inv_step h op h1f) h2

/-- The bookkeeping invariant holds after any good trace run from a state
with no campaigns and no donations. -/
theorem inv_runFrom_good {ops : List Op} {s : ContractState} (h : Inv s)
    (hc : s.campaigns = []) (hd : s.donations = []) (hg : goodTrace ops = true) :
    Inv (runFrom s ops) := by
  induction ops generalizing s with
  | nil => exact h
  | cons op rest ih =>
    rw [goodTrace, Bool.and_eq_true] at hg
    obtain ⟨hg1, hg2⟩ := hg
    show Inv (runFrom (applyOp s op) rest)
    cases hio : isInitOp op with
    | true =>
      cases op with
      | init_platform a f =>
        obtain ⟨f1, f2, f3, f4, f5⟩ := init_platform_frame a f s
        refine ih (inv_init_clean hc hd a f) ?_ ?_ hg2
        · rw [applyOp_init, f1, hc]
        · rw [applyOp_init, f2, hd]
      | create_campaign b t d g dur c l now => simp [isInitOp] at hio
      | verify_campaign cid ts => simp [isInitOp] at hio
      | donate cid donor amount anon mn now => simp [isInitOp] at hio
      | create_disbursement cid r amount m now => simp [isInitOp] at hio
      | approve_disbursement did => simp [isInitOp] at hio
      | execute_disbursement did now => simp [isInitOp] at hio
      | close_campaign cid => simp [isInitOp] at hio
    | false =>
      cases hcd : isCDOp op with
      | true =>
        have hnoinit : noInit rest = true := by
          rw [hcd] at hg1
          simpa using hg1
        exact inv_runFrom_noInit (inv_step h op hio) hnoinit
      | false =>
        obtain ⟨hc2, hd2⟩ := clean_step op hcd hc hd
        exact ih (inv_step h op hio) hc2 hd2 hg2

/-- The bookkeeping invariant holds for the fresh deployment state. -/
theorem inv_initState : Inv initState := by
  refine ⟨?_, ?_, ?_, ?_⟩
  · intro k camp hk
    simp [initState, lookupA] at hk
  · intro p hp
    simp [initState] at hp
  · intro p hp
    simp [initState] at hp
  · intro p hp
    simp [initState] at hp

/-- The bookkeeping invariant holds in every state reached by a good trace. -/
theorem inv_runOps {ops : List Op} (hg : goodTrace ops = true) : Inv (runOps ops) :=
  inv_runFrom_good inv_initState rfl rfl hg

/-- create_disbursement never touches trust scores. -/
theorem create_disbursement_ts_frame (cid : Id) (r : Addr) (amount : Nat) (m : Str)
    (now : Nat) (s : ContractState) :
    (create_disbursement cid r amount m now s).2.trustScores = s.trustScores := by
  unfold create_disbursement
  split
  · rfl
  · split
    · rfl
    · rfl

/-- approve_disbursement never touches trust scores. -/
theorem approve_ts_frame (did : Id) (s : ContractState) :
    (approve_disbursement did s).2.trustScores = s.trustScores := by
  unfold approve_disbursement
  split
  · rfl
  · split
    · rfl
    · rfl

/-- execute_disbursement never touches trust scores. -/
theorem execute_ts_frame (did : Id) (now : Nat) (s : ContractState) :
    (execute_disbursement did now s).2.trustScores = s.trustScores := by
  unfold execute_disbursement
  split
  · rfl
  · split
    · rfl
    · rfl

/-- All stored trust scores are at most 100. -/
def TSB (s : ContractState) : Prop :=
  ∀ a ts, lookupA s.trustScores a = some ts → ts.score ≤ 100

theorem tsb_insert {l : List (Addr × TrustScore)} {k : Addr} {v : TrustScore}
    (h : ∀ a ts, lookupA l a = some ts → ts.score ≤ 100) (hv : v.score ≤ 100) :
    ∀ a ts, lookupA (insertA l k v) a = some ts → ts.score ≤ 100 := by
  intro a ts hl
  rw [lookupA_insertA] at hl
  by_cases hk : a = k
  · rw [if_pos hk] at hl
    rw [← Option.some.inj hl]
    exact hv
  · rw [if_neg hk] at hl
    exact h a ts hl

theorem donor_ts_step_score_le (ts0 : TrustScore) (amount now : Nat) :
    (donor_ts_step ts0 amount now).score ≤ 100 := Nat.min_le_right _ _

theorem beneficiary_ts_step_score_le (ts0 : TrustScore) (now : Nat) :
    (beneficiary_ts_step ts0 now).score ≤ 100 := Nat.min_le_right _ _

/-- Every invocation preserves the trust-score bound. -/
theorem tsb_step {s : ContractState} (h : TSB s) (op : Op) : TSB (applyOp s op) := by
  cases op with
  | init_platform a f =>
    rw [applyOp_init]
    intro x ts hl
    rw [(init_platform_frame a f s).2.2.1] at hl
    exact h x ts hl
  | create_campaign b t d g dur c l now =>
    rw [applyOp_create_campaign]
    cases hE : create_campaign b t d g dur c l now s with
    | mk res s2 =>
      cases res with
      | error e =>
        show TSB s2
        rw [create_campaign_error hE]
        exact h
      | ok cid =>
        show TSB s2
        obtain ⟨hg, hdur, hin, heq⟩ := create_campaign_ok_inv hE
        have h2 : s2 = (create_campaign_commit b t d g dur c l now s).2 :=
          congrArg Prod.snd heq
        rw [h2]
        intro x ts hl
        rw [(create_campaign_commit_spec b t d g dur c l now s).2.2.2.1] at hl
        exact tsb_insert h (beneficiary_ts_step_score_le _ _) x ts hl
  | verify_campaign cid ts0 =>
    rw [applyOp_verify]
    cases hE : verify_campaign cid ts0 s with
    | mk res s2 =>
      cases res with
      | error e =>
        show TSB s2
        rw [verify_campaign_error hE]
        exact h
      | ok u =>
        show TSB s2
        obtain ⟨a, campaign, ha, hc, hs2⟩ := verify_campaign_ok_inv hE
        rw [hs2]
        exact h
  | donate cid donor amount anon mn now =>
    rw [applyOp_donate]
    cases hE : donate cid donor amount anon mn now s with
    | mk res s2 =>
      cases res with
      | error e =>
        show TSB s2
        rw [donate_error hE]
        exact h
      | ok did =>
        show TSB s2
        obtain ⟨campaign, hc, hact, hend, hz, hdid, hs2⟩ := donate_ok_inv hE
        rw [hs2]
        intro x ts hl
        rw [(donate_commit_spec cid donor amount anon mn now campaign s).2.2.1] at hl
        exact tsb_insert h (donor_ts_step_score_le _ _ _) x ts hl
  | create_disbursement cid r amount m now =>
    rw [applyOp_create_disbursement]
    intro x ts hl
    rw [create_disbursement_ts_frame cid r amount m now s] at hl
    exact h x ts hl
  | approve_disbursement did =>
    rw [applyOp_approve]
    intro x ts hl
    rw [approve_ts_frame did s] at hl
    exact h x ts hl
  | execute_disbursement did now =>
    rw [applyOp_execute]
    intro x ts hl
    rw [execute_ts_frame did now s] at hl
    exact h x ts hl
  | close_campaign cid =>
    rw [applyOp_close]
    cases hE : close_campaign cid s with
    | mk res s2 =>
      cases res with
      | error e =>
        show TSB s2
        rw [close_campaign_error hE]
        exact h
      | ok u =>
        show TSB s2
        obtain ⟨campaign, hc, hact, hs2⟩ := close_campaign_ok_inv hE
        rw [hs2]
        exact h

/-- The trust-score bound holds along any trace. -/
theorem tsb_runFrom {ops : List Op} {s : ContractState} (h : TSB s) :
    TSB (runFrom s ops) := by
  induction ops generalizing s with
  | nil => exact h
  | cons op rest ih => exact ih (tsb_step h op)

/-- verify_campaign never touches disbursements. -/
theorem verify_disb_frame (cid : Id) (ts : Nat) (s : ContractState) :
    (verify_campaign cid ts s).2.disbursements = s.disbursements := by
  unfold verify_campaign
  split
  · rfl
  · split
    · rfl
    · rfl

/-- close_campaign never touches disbursements. -/
theorem close_disb_frame (cid : Id) (s : ContractState) :
    (close_campaign cid s).2.disbursements = s.disbursements := by
  unfold close_campaign
  split
  · rfl
  · split
    · rfl
    · rfl

/-- donate never touches disbursements. -/
theorem donate_disb_frame (cid : Id) (donor : Addr) (amount : Nat) (anon mn : Bool)
    (now : Nat) (s : ContractState) :
    (donate cid donor amount anon mn now s).2.disbursements = s.disbursements := by
  unfold donate
  split
  · rfl
  · rename_i campaign hc
    split
    · rfl
    · split
      · rfl
      · split
        · rfl
        · exact (donate_commit_spec cid donor amount anon mn now campaign s).2.2.2.2.2.2.2

/-- create_campaign never touches disbursements. -/
theorem create_campaign_disb_frame (b : Addr) (t d : Str) (g dur : Nat) (c l : Str)
    (now : Nat) (s : ContractState) :
    (create_campaign b t d g dur c l now s).2.disbursements = s.disbursements := by
  unfold create_campaign
  split
  · rfl
  · split
    · rfl
    · split
      · rfl
      · exact (create_campaign_commit_spec b t d g dur c l now s).2.2.2.2.2.2.2.2

/-- A disbursement found Executed after create_disbursement was already
stored with that record before the call. -/
theorem executed_step_create_disbursement {cid : Id} {r : Addr} {amount : Nat} {m : Str}
    {now : Nat} {s : ContractState} {did : Id} {d : Disbursement}
    (h : lookupA (create_disbursement cid r amount m now s).2.disbursements did = some d)
    (hex : d.status = DisbursementStatus.Executed) :
    lookupA s.disbursements did = some d := by
  unfold create_disbursement at h
  split at h
  · exact h
  · split at h
    · exact h
    · simp only [lookupA_insertA] at h
      split at h
      · rw [← Option.some.inj h] at hex
        simp at hex
      · exact h

/-- A disbursement found Executed after approve_disbursement was already
stored with that record before the call. -/
theorem executed_step_approve {did2 : Id} {s : ContractState} {did : Id}
    {d : Disbursement}
    (h : lookupA (approve_disbursement did2 s).2.disbursements did = some d)
    (hex : d.status = DisbursementStatus.Executed) :
    lookupA s.disbursements did = some d := by
  unfold approve_disbursement at h
  split at h
  · exact h
  · split at h
    · exact h
    · simp only [lookupA_insertA] at h
      split at h
      · rw [← Option.some.inj h] at hex
        simp at hex
      · exact h

/-- A disbursement found Executed after execute_disbursement was Executed or
Approved before the call. -/
theorem executed_step_execute {did2 : Id} {now : Nat} {s : ContractState} {did : Id}
    {d : Disbursement}
    (h : lookupA (execute_disbursement did2 now s).2.disbursements did = some d)
    (hex : d.status = DisbursementStatus.Executed) :
    ∃ d0, lookupA s.disbursements did = some d0 ∧
      (d0.status = DisbursementStatus.Executed ∨
        d0.status = DisbursementStatus.Approved) := by
  unfold execute_disbursement at h
  split at h
  · exact ⟨d, h, Or.inl hex⟩
  · rename_i disb hd
    split at h
    · rename_i hst
      simp only [lookupA_insertA] at h
      split at h
      · rename_i hdd
        exact ⟨disb, by rw [hdd]; exact hd, Or.inr hst⟩
      · exact ⟨d, h, Or.inl hex⟩
    · exact ⟨d, h, Or.inl hex⟩

/-- A disbursement found Executed after any single invocation was already
Executed or Approved before it. -/
theorem executed_step {s : ContractState} {op : Op} {did : Id} {d : Disbursement}
    (h : lookupA (applyOp s op).disbursements did = some d)
    (hex : d.status = DisbursementStatus.Executed) :
    ∃ d0, lookupA s.disbursements did = some d0 ∧
      (d0.status = DisbursementStatus.Executed ∨
        d0.status = DisbursementStatus.Approved) := by
  cases op with
  | init_platform a f =>
    rw [applyOp_init, (init_platform_frame a f s).2.2.2.2] at h
    exact ⟨d, h, Or.inl hex⟩
  | create_campaign b t dsc g dur c l now =>
    rw [applyOp_create_campaign, create_campaign_disb_frame b t dsc g dur c l now s] at h
    exact ⟨d, h, Or.inl hex⟩
  | verify_campaign cid ts =>
    rw [applyOp_verify, verify_disb_frame cid ts s] at h
    exact ⟨d, h, Or.inl hex⟩
  | donate cid donor amount anon mn now =>
    rw [applyOp_donate, donate_disb_frame cid donor amount anon mn now s] at h
    exact ⟨d, h, Or.inl hex⟩
  | create_disbursement cid r amount m now =>
    rw [applyOp_create_disbursement] at h
    exact ⟨d, executed_step_create_disbursement h hex, Or.inl hex⟩
  | approve_disbursement did2 =>
    rw [applyOp_approve] at h
    exact ⟨d, executed_step_approve h hex, Or.inl hex⟩
  | execute_disbursement did2 now =>
    rw [applyOp_execute] at h
    exact executed_step_execute h hex
  | close_campaign cid =>
    rw [applyOp_close, close_disb_frame cid s] at h
    exact ⟨d, h, Or.inl hex⟩

theorem runOps_append_singleton (l : List Op) (op : Op) :
    runOps (l ++ [op]) = applyOp (runOps l) op := by
  simp [runOps, runFrom, List.foldl_append]

/-- Every disbursement that is Executed in a reachable state was Approved at
some earlier point of the trace. -/
theorem executed_provenance {ops : List Op} {did : Id} {d : Disbursement}
    (h : lookupA (runOps ops).disbursements did = some d)
    (hex : d.status = DisbursementStatus.Executed) :
    ∃ l1 l2 d0, ops = l1 ++ l2 ∧ lookupA (runOps l1).disbursements did = some d0 ∧
      d0.status = DisbursementStatus.Approved := by
  induction ops using List.reverseRecOn generalizing d with
  | nil => simp [runOps, runFrom, initState, lookupA] at h
  | append_singleton l op ih =>
    rw [runOps_append_singleton] at h
    obtain ⟨d0, hd0, hst⟩ := executed_step h hex
    rcases hst with hst | hst
    · obtain ⟨l1, l2, d1, heq, hl, ha⟩ := ih hd0 hst
      exact ⟨l1, l2 ++ [op], d1, by rw [heq, List.append_assoc], hl, ha⟩
    · exact ⟨l, [op], d0, rfl, hd0, hst⟩

/-- An Executed disbursement is untouched by any further execute_disbursement
call: re-execution of the same id fails NotApproved, execution of another id
writes elsewhere. -/
theorem execute_preserves_executed {s : ContractState} {did : Id} {d : Disbursement}
    (did2 : Id) (now : Nat) (h : lookupA s.disbursements did = some d)
    (hex : d.status = DisbursementStatus.Executed) :
    lookupA (execute_disbursement did2 now s).2.disbursements did = some d := by
  unfold execute_disbursement
  split
  · exact h
  · rename_i disb hd
    split
    · rename_i hst
      simp only [lookupA_insertA]
      split
      · rename_i hdd
        rw [hdd] at h
        rw [h] at hd
        rw [← Option.some.inj hd, hex] at hst
        simp at hst
      · exact h
    · exact h

/-- The donor score formula exactly as the specification words it:
min(100, 50 + floor(30*min(dc,100)/100) + floor(15*min(td/1000,100)/100)
+ (5 if dc>1 else 0)). -/
def spec_donor_score (donation_count total_donated : Nat) : Nat :=
  min 100 (50 + 30 * min donation_count 100 / 100 +
    15 * min (total_donated / 1000) 100 / 100 +
    (if donation_count > 1 then 5 else 0))

/-- The score the code computes agrees with the specification formula applied
to the counters it stores. -/
theorem donor_ts_step_score (ts0 : TrustScore) (amount now : Nat) :
    (donor_ts_step ts0 amount now).score =
      spec_donor_score (donor_ts_step ts0 amount now).donation_count
        (donor_ts_step ts0 amount now).total_donated := by
  simp [donor_ts_step, spec_donor_score, Nat.min_comm, Nat.mul_comm]

/-- C2: for every successful donate call with gross amount g and configured
fee rate r at most 1000 bps, the stored Donation.amount is the net
g - floor(g*r/10000), and net plus fee equals the gross amount in exact Nat
arithmetic. -/
theorem claim_C2_fee_split (s : ContractState) (campaignId : Id) (donor : Addr)
    (g : Nat) (anonymous mint_nft : Bool) (now : Nat) (did : Id) (s2 : ContractState)
    (hr : s.platformFee.getD 200 ≤ 1000)
    (h : donate campaignId donor g anonymous mint_nft now s = (Except.ok did, s2)) :
    ∃ dn, lookupA s2.donations did = some dn ∧
      dn.amount = g - g * s.platformFee.getD 200 / 10000 ∧
      dn.amount + g * s.platformFee.getD 200 / 10000 = g := by
  obtain ⟨campaign, hc, hact, hend, hz, hdid, hs2⟩ := donate_ok_inv h
  subst hdid
  have hlk : lookupA s2.donations
      (Id.donation campaignId donor g now (s.donationCounter.getD 0 + 1)) = some
      { id := Id.donation campaignId donor g now (s.donationCounter.getD 0 + 1),
        campaign_id := campaignId, donor := donor,
        amount := g - g * s.platformFee.getD 200 / 10000, timestamp := now,
        nft_minted := mint_nft, anonymous := anonymous } := by
    rw [hs2, (donate_commit_spec campaignId donor g anonymous mint_nft now campaign s).2.1,
      lookupA_insertA, if_pos rfl]
  refine ⟨_, hlk, rfl, ?_⟩
  show g - g * s.platformFee.getD 200 / 10000 + g * s.platformFee.getD 200 / 10000 = g
  have h1 : g * s.platformFee.getD 200 ≤ g * 10000 :=
    Nat.mul_le_mul_left g (le_trans hr (by norm_num))
  have h2 : g * s.platformFee.getD 200 / 10000 ≤ g * 10000 / 10000 :=
    Nat.div_le_div_right h1
  rw [Nat.mul_div_cancel g (by norm_num)] at h2
  omega

/-- Witness for C2 on a concrete initialized contract with fee 200 bps and a
donation of 1000: the stored net is 980 and 980 + 20 = 1000. -/
theorem claim_C2_fee_split_witness :
    (runOps [Op.init_platform 9 200,
      Op.create_campaign 1 "t" "d" 5 30 "c" "l" 0]).platformFee.getD 200 ≤ 1000 ∧
    (lookupA (donate (Id.campaign 1 "t" 5 0 1) 2 1000 false false 0
        (runOps [Op.init_platform 9 200,
          Op.create_campaign 1 "t" "d" 5 30 "c" "l" 0])).2.donations
      (Id.donation (Id.campaign 1 "t" 5 0 1) 2 1000 0 1)).map
        (fun dn => dn.amount + 1000 * 200 / 10000) = some 1000 := by
  refine ⟨by decide, ?_⟩
  obtain ⟨dn, h1, h2, h3⟩ := claim_C2_fee_split
    (runOps [Op.init_platform 9 200, Op.create_campaign 1 "t" "d" 5 30 "c" "l" 0])
    (Id.campaign 1 "t" 5 0 1) 2 1000 false false 0
    (Id.donation (Id.campaign 1 "t" 5 0 1) 2 1000 0 1) _ (by decide) rfl
  have h1b : lookupA (donate (Id.campaign 1 "t" 5 0 1) 2 1000 false false 0
      (runOps [Op.init_platform 9 200,
        Op.create_campaign 1 "t" "d" 5 30 "c" "l" 0])).2.donations
      (Id.donation (Id.campaign 1 "t" 5 0 1) 2 1000 0 1) = some dn := h1
  rw [h1b]
  show some (dn.amount + 1000 * 200 / 10000) = some 1000
  rw [show (1000 : Nat) * 200 / 10000 =
    1000 * (runOps [Op.init_platform 9 200,
      Op.create_campaign 1 "t" "d" 5 30 "c" "l" 0]).platformFee.getD 200 / 10000 by decide]
  rw [h3]

/-- C4: in every reachable state, every stored trust score lies in [0,100]
(the lower bound is inherent to Nat, the upper bound is proved). -/
theorem claim_C4_score_bounded (ops : List Op) (a : Addr) (ts : TrustScore)
    (h : lookupA (runOps ops).trustScores a = some ts) : ts.score ≤ 100 := by
  have h0 : TSB initState := by
    intro x ts0 hl
    simp [initState, lookupA] at hl
  exact tsb_runFrom h0 a ts h

/-- Witness for C4: after one campaign creation the beneficiary holds score
51, which is at most 100. -/
theorem claim_C4_score_bounded_witness :
    lookupA (runOps [Op.create_campaign 1 "t" "d" 5 30 "c" "l" 0]).trustScores 1 =
      some { entity := 1, score := 51, verification_level := 0, donation_count := 0,
             total_donated := 0, campaigns_created := 1, last_updated := 0 } ∧
    ({ entity := 1, score := 51, verification_level := 0, donation_count := 0,
       total_donated := 0, campaigns_created := 1, last_updated := 0 } : TrustScore).score ≤ 100 :=
  ⟨by decide, claim_C4_score_bounded [Op.create_campaign 1 "t" "d" 5 30 "c" "l" 0] 1 _ (by decide)⟩

/-- C6: after every successful donation the donor's stored score equals the
specification formula applied to the stored counters, hence equal counters
always reproduce the identical score. -/
theorem claim_C6_score_recomputed (s : ContractState) (cid : Id) (donor : Addr)
    (g : Nat) (anon mn : Bool) (now : Nat) (did : Id) (s2 : ContractState)
    (h : donate cid donor g anon mn now s = (Except.ok did, s2)) :
    ∃ ts, lookupA s2.trustScores donor = some ts ∧
      ts.score = spec_donor_score ts.donation_count ts.total_donated := by
  obtain ⟨campaign, hc, hact, hend, hz, hdid, hs2⟩ := donate_ok_inv h
  rw [hs2, (donate_commit_spec cid donor g anon mn now campaign s).2.2.1, lookupA_insertA,
    if_pos rfl]
  exact ⟨_, rfl, donor_ts_step_score _ _ _⟩

/-- Witness for C6: the concrete first donation of 1000 (net 980) yields
score min(100, 50+0+0+0) = 50 via the formula. -/
theorem claim_C6_score_recomputed_witness :
    (lookupA (donate (Id.campaign 1 "t" 5 0 1) 2 1000 false false 0
        (runOps [Op.init_platform 9 200,
          Op.create_campaign 1 "t" "d" 5 30 "c" "l" 0])).2.trustScores 2).map
      (fun ts => decide (ts.score = spec_donor_score ts.donation_count ts.total_donated)) =
      some true := by
  obtain ⟨ts, h1, h2⟩ := claim_C6_score_recomputed
    (runOps [Op.init_platform 9 200, Op.create_campaign 1 "t" "d" 5 30 "c" "l" 0])
    (Id.campaign 1 "t" 5 0 1) 2 1000 false false 0
    (Id.donation (Id.campaign 1 "t" 5 0 1) 2 1000 0 1) _ rfl
  have h1b : lookupA (donate (Id.campaign 1 "t" 5 0 1) 2 1000 false false 0
      (runOps [Op.init_platform 9 200,
        Op.create_campaign 1 "t" "d" 5 30 "c" "l" 0])).2.trustScores 2 = some ts := h1
  rw [h1b]
  simp [h2]

/-- C7: every public entry point that returns an error leaves the whole
state exactly as it was before the call. -/
theorem claim_C7_error_no_write (s : ContractState) (op : Op) (e : SaviaError)
    (s2 : ContractState) (h : runOp s op = (Except.error e, s2)) : s2 = s := by
  cases op with
  | init_platform a f => exact init_platform_error h
  | create_campaign b t d g dur c l now =>
    simp only [runOp] at h
    split at h
    · exact ok_ne_err h
    · rename_i e2 s3 hE
      rw [err_state h]
      exact create_campaign_error hE
  | verify_campaign cid ts => exact verify_campaign_error h
  | donate cid donor amount anon mn now =>
    simp only [runOp] at h
    split at h
    · exact ok_ne_err h
    · rename_i e2 s3 hE
      rw [err_state h]
      exact donate_error hE
  | create_disbursement cid r amount m now =>
    simp only [runOp] at h
    split at h
    · exact ok_ne_err h
    · rename_i e2 s3 hE
      rw [err_state h]
      exact create_disbursement_error hE
  | approve_disbursement did => exact approve_disbursement_error h
  | execute_disbursement did now => exact execute_disbursement_error h
  | close_campaign cid => exact close_campaign_error h

/-- Witness for C7: donating to an unknown campaign on a fresh deployment
fails CampaignNotFound and commits nothing. -/
theorem claim_C7_error_no_write_witness :
    (runOp initState (Op.donate (Id.raw 0) 1 5 false false 0)).2 = initState :=
  claim_C7_error_no_write initState (Op.donate (Id.raw 0) 1 5 false false 0)
    SaviaError.CampaignNotFound _ rfl

/-- C5: execute_disbursement on an existing non-Approved disbursement fails
NotApproved with no state change; on an Approved one it sets Executed with
executed_at = now; and any disbursement Executed in a reachable state was
Approved at some earlier point of the trace. -/
theorem claim_C5_execute_gate :
    (∀ (s : ContractState) (did : Id) (now : Nat) (d : Disbursement),
      lookupA s.disbursements did = some d →
      d.status ≠ DisbursementStatus.Approved →
      execute_disbursement did now s = (Except.error SaviaError.NotApproved, s)) ∧
    (∀ (s : ContractState) (did : Id) (now : Nat) (d : Disbursement),
      lookupA s.disbursements did = some d →
      d.status = DisbursementStatus.Approved →
      execute_disbursement did now s = (Except.ok (), { s with
        disbursements := insertA s.disbursements did
          { d with status := .Executed, executed_at := some now } })) ∧
    (∀ (ops : List Op) (did : Id) (d : Disbursement),
      lookupA (runOps ops).disbursements did = some d →
      d.status = DisbursementStatus.Executed →
      ∃ l1 l2 d0, ops = l1 ++ l2 ∧
        lookupA (runOps l1).disbursements did = some d0 ∧
        d0.status = DisbursementStatus.Approved) := by
  refine ⟨?_, ?_, ?_⟩
  · intro s did now d hd hna
    unfold execute_disbursement
    simp only [hd]
    rw [if_neg hna]
  · intro s did now d hd hap
    unfold execute_disbursement
    simp only [hd]
    rw [if_pos hap]
  · intro ops did d h hex
    exact executed_provenance h hex

/-- Witness for C5 on a concrete Pending disbursement: execution fails
NotApproved and leaves the state unchanged. -/
theorem claim_C5_execute_gate_witness :
    execute_disbursement (Id.disbursement (Id.campaign 1 "t" 5 0 1) 2 0 "m" 1) 3
      (runOps [Op.init_platform 9 200, Op.create_campaign 1 "t" "d" 5 30 "c" "l" 0,
        Op.create_disbursement (Id.campaign 1 "t" 5 0 1) 2 0 "m" 0]) =
    (Except.error SaviaError.NotApproved,
      runOps [Op.init_platform 9 200, Op.create_campaign 1 "t" "d" 5 30 "c" "l" 0,
        Op.create_disbursement (Id.campaign 1 "t" 5 0 1) 2 0 "m" 0]) :=
  claim_C5_execute_gate.1
    (runOps [Op.init_platform 9 200, Op.create_campaign 1 "t" "d" 5 30 "c" "l" 0,
      Op.create_disbursement (Id.campaign 1 "t" 5 0 1) 2 0 "m" 0])
    (Id.disbursement (Id.campaign 1 "t" 5 0 1) 2 0 "m" 1) 3
    { id := Id.disbursement (Id.campaign 1 "t" 5 0 1) 2 0 "m" 1,
      campaign_id := Id.campaign 1 "t" 5 0 1, recipient := 2, amount := 0,
      milestone := "m", status := .Pending, created_at := 0, executed_at := none }
    (by decide) (by decide)

/-- C8: create_campaign validates goal, duration and inputs in source order
with the specified error codes, and on success stores the campaign with
end_time = now + duration_days*86400, current_amount = 0, active, unverified
and zero trust score. -/
theorem claim_C8_create_campaign (b : Addr) (t d : Str) (g dur : Nat) (c l : Str)
    (now : Nat) (s : ContractState) :
    (g = 0 → create_campaign b t d g dur c l now s =
      (Except.error SaviaError.InvalidGoal, s)) ∧
    (g ≠ 0 → (dur = 0 ∨ dur > 365) → create_campaign b t d g dur c l now s =
      (Except.error SaviaError.InvalidDuration, s)) ∧
    (g ≠ 0 → ¬ (dur = 0 ∨ dur > 365) → (t.length = 0 ∨ d.length = 0) →
      create_campaign b t d g dur c l now s =
        (Except.error SaviaError.InvalidInput, s)) ∧
    (g ≠ 0 → ¬ (dur = 0 ∨ dur > 365) → ¬ (t.length = 0 ∨ d.length = 0) →
      ∃ cid s2 camp, create_campaign b t d g dur c l now s = (Except.ok cid, s2) ∧
        lookupA s2.campaigns cid = some camp ∧
        camp.end_time = now + dur * 86400 ∧ camp.current_amount = 0 ∧
        camp.active = true ∧ camp.verified = false ∧ camp.trust_score = 0 ∧
        camp.start_time = now) := by
  refine ⟨?_, ?_, ?_, ?_⟩
  · intro hg
    unfold create_campaign
    rw [if_pos hg]
  · intro hg hdur
    unfold create_campaign
    rw [if_neg hg, if_pos hdur]
  · intro hg hdur hin
    unfold create_campaign
    rw [if_neg hg, if_neg hdur, if_pos hin]
  · intro hg hdur hin
    obtain ⟨sr, sc, sd, sts, sdc, scc, sa, spf, sdb⟩ :=
      create_campaign_commit_spec b t d g dur c l now s
    refine ⟨Id.campaign b t g now (s.campaignCounter.getD 0 + 1),
      (create_campaign_commit b t d g dur c l now s).2,
      { id := Id.campaign b t g now (s.campaignCounter.getD 0 + 1), title := t,
        description := d, beneficiary := b, goal_amount := g, current_amount := 0,
        start_time := now, end_time := now + dur * 24 * 60 * 60, verified := false,
        trust_score := 0, category := c, location := l, active := true },
      ?_, ?_, ?_, rfl, rfl, rfl, rfl, rfl⟩
    · rw [create_campaign_eq_ok hg hdur hin]
      exact Prod.ext sr rfl
    · rw [sc, lookupA_insertA, if_pos rfl]
    · show now + dur * 24 * 60 * 60 = now + dur * 86400
      omega

/-- Witness for C8 at concrete valid inputs. -/
theorem claim_C8_create_campaign_witness :
    create_campaign 1 "" "d" 5 30 "c" "l" 0 initState =
      (Except.error SaviaError.InvalidInput, initState) :=
  (claim_C8_create_campaign 1 "" "d" 5 30 "c" "l" 0 initState).2.2.1
    (by decide) (by decide) (by simp)

/-- C9: neither create_campaign nor donate requires prior initialization:
on the fresh deployment create_campaign succeeds with the campaign counter
defaulting to 0 (so the first id carries counter 1), and donate on any
uninitialized store (platform fee key absent) succeeds and charges the
default 200 bps fee. -/
theorem claim_C9_no_init_required :
    (∀ (b : Addr) (t d : Str) (g dur : Nat) (c l : Str) (now : Nat),
      g ≠ 0 → ¬ (dur = 0 ∨ dur > 365) → ¬ (t.length = 0 ∨ d.length = 0) →
      ∃ s2, create_campaign b t d g dur c l now initState =
        (Except.ok (Id.campaign b t g now 1), s2) ∧ s2.campaignCounter = some 1) ∧
    (∀ (s : ContractState) (cid : Id) (donor : Addr) (g : Nat) (anon mn : Bool)
      (now : Nat) (campaign : Campaign), s.platformFee = none →
      lookupA s.campaigns cid = some campaign → campaign.active = true →
      ¬ now > campaign.end_time → g ≠ 0 →
      ∃ did s2, donate cid donor g anon mn now s = (Except.ok did, s2) ∧
        ∃ dn, lookupA s2.donations did = some dn ∧
          dn.amount = g - g * 200 / 10000) := by
  constructor
  · intro b t d g dur c l now hg hdur hin
    obtain ⟨sr, sc, sd, sts, sdc, scc, sa, spf, sdb⟩ :=
      create_campaign_commit_spec b t d g dur c l now initState
    refine ⟨(create_campaign_commit b t d g dur c l now initState).2, ?_, scc⟩
    rw [create_campaign_eq_ok hg hdur hin]
    exact Prod.ext sr rfl
  · intro s cid donor g anon mn now campaign hpf hc hact hend hg
    refine ⟨Id.donation cid donor g now (s.donationCounter.getD 0 + 1),
      donate_commit cid donor g anon mn now campaign s,
      donate_eq_ok hc hact hend hg, ?_⟩
    refine ⟨{
        id := Id.donation cid donor g now (s.donationCounter.getD 0 + 1),
        campaign_id := cid, donor := donor,
        amount := g - g * s.platformFee.getD 200 / 10000, timestamp := now,
        nft_minted := mn, anonymous := anon }, ?_, ?_⟩
    · rw [(donate_commit_spec cid donor g anon mn now campaign s).2.1,
        lookupA_insertA, if_pos rfl]
    · show g - g * s.platformFee.getD 200 / 10000 = g - g * 200 / 10000
      rw [hpf]
      rfl

/-- Witness for C9: a campaign created on the fresh deployment and a
donation before initialization charged at the default 2 percent. -/
theorem claim_C9_no_init_required_witness :
    (5 : Nat) ≠ 0 ∧
    (lookupA (donate (Id.campaign 1 "t" 5 0 1) 2 1000 false false 0
        (runOps [Op.create_campaign 1 "t" "d" 5 30 "c" "l" 0])).2.donations
      (Id.donation (Id.campaign 1 "t" 5 0 1) 2 1000 0 1)).map (fun dn => dn.amount) =
        some 980 := by
  refine ⟨by decide, ?_⟩
  obtain ⟨did, s2, h1, dn, h2, h3⟩ := claim_C9_no_init_required.2
    (runOps [Op.create_campaign 1 "t" "d" 5 30 "c" "l" 0])
    (Id.campaign 1 "t" 5 0 1) 2 1000 false false 0
    { id := Id.campaign 1 "t" 5 0 1, title := "t", description := "d", beneficiary := 1,
      goal_amount := 5, current_amount := 0, start_time := 0,
      end_time := 0 + 30 * 24 * 60 * 60, verified := false, trust_score := 0,
      category := "c", location := "l", active := true }
    (by decide) (by decide) (by decide) (by decide) (by decide)
  have h1b : donate (Id.campaign 1 "t" 5 0 1) 2 1000 false false 0
      (runOps [Op.create_campaign 1 "t" "d" 5 30 "c" "l" 0]) = (Except.ok did, s2) := h1
  rw [h1b]
  have hdid : did = Id.donation (Id.campaign 1 "t" 5 0 1) 2 1000 0 1 := by
    obtain ⟨campaign2, _, _, _, _, hdid2, _⟩ := donate_ok_inv h1b
    exact hdid2
  rw [← hdid, h2]
  show some dn.amount = some 980
  rw [h3]

/-- C10: a successful execute_disbursement changes only the targeted
Disbursement record (status and executed_at); campaigns (in particular
current_amount), donations, trust scores, NFTs, stats, admin, fee and all
counters are untouched, as is every other disbursement. -/
theorem claim_C10_execute_frame (did : Id) (now : Nat) (s : ContractState) (v : Unit)
    (s2 : ContractState) (h : execute_disbursement did now s = (Except.ok v, s2)) :
    s2.campaigns = s.campaigns ∧ s2.donations = s.donations ∧
    s2.trustScores = s.trustScores ∧ s2.nfts = s.nfts ∧ s2.stats = s.stats ∧
    s2.admin = s.admin ∧ s2.platformFee = s.platformFee ∧
    s2.campaignCounter = s.campaignCounter ∧ s2.donationCounter = s.donationCounter ∧
    s2.nftCounter = s.nftCounter ∧ s2.disbursementCounter = s.disbursementCounter ∧
    (∀ k, k ≠ did → lookupA s2.disbursements k = lookupA s.disbursements k) ∧
    (∃ d, lookupA s.disbursements did = some d ∧
      lookupA s2.disbursements did =
        some { d with status := .Executed, executed_at := some now }) := by
  obtain ⟨d, hd, hst, hs2⟩ := execute_disbursement_ok_inv h
  subst hs2
  refine ⟨rfl, rfl, rfl, rfl, rfl, rfl, rfl, rfl, rfl, rfl, rfl, ?_, d, hd, ?_⟩
  · intro k hk
    show lookupA (insertA s.disbursements did
      { d with status := .Executed, executed_at := some now }) k =
      lookupA s.disbursements k
    rw [lookupA_insertA, if_neg hk]
  · show lookupA (insertA s.disbursements did
      { d with status := .Executed, executed_at := some now }) did =
      some { d with status := .Executed, executed_at := some now }
    rw [lookupA_insertA, if_pos rfl]

/-- Witness for C10 on a concrete approved disbursement: executing it leaves
the campaign map identical. -/
theorem claim_C10_execute_frame_witness :
    (execute_disbursement (Id.disbursement (Id.campaign 1 "t" 5 0 1) 2 0 "m" 1) 0
      (runOps [Op.init_platform 9 200, Op.create_campaign 1 "t" "d" 5 30 "c" "l" 0,
        Op.create_disbursement (Id.campaign 1 "t" 5 0 1) 2 0 "m" 0,
        Op.approve_disbursement
          (Id.disbursement (Id.campaign 1 "t" 5 0 1) 2 0 "m" 1)])).2.campaigns =
    (runOps [Op.init_platform 9 200, Op.create_campaign 1 "t" "d" 5 30 "c" "l" 0,
      Op.create_disbursement (Id.campaign 1 "t" 5 0 1) 2 0 "m" 0,
      Op.approve_disbursement
        (Id.disbursement (Id.campaign 1 "t" 5 0 1) 2 0 "m" 1)]).campaigns :=
  (claim_C10_execute_frame (Id.disbursement (Id.campaign 1 "t" 5 0 1) 2 0 "m" 1) 0
    (runOps [Op.init_platform 9 200, Op.create_campaign 1 "t" "d" 5 30 "c" "l" 0,
      Op.create_disbursement (Id.campaign 1 "t" 5 0 1) 2 0 "m" 0,
      Op.approve_disbursement (Id.disbursement (Id.campaign 1 "t" 5 0 1) 2 0 "m" 1)])
    () _ rfl).1

/-- Counterexample to C1 as stated: on a reachable state with an Executed
disbursement, one approve_disbursement call moves it back to Approved
(approve never checks the current status), and a further
execute_disbursement call executes it a second time, overwriting
executed_at.  Status transitions are therefore not one-directional and a
disbursement can double-execute. -/
theorem claim_C1_one_directional_counterexample :
    (lookupA (runOps [Op.init_platform 9 200,
        Op.create_campaign 1 "t" "d" 5 30 "c" "l" 0,
        Op.create_disbursement (Id.campaign 1 "t" 5 0 1) 2 0 "m" 0,
        Op.approve_disbursement (Id.disbursement (Id.campaign 1 "t" 5 0 1) 2 0 "m" 1),
        Op.execute_disbursement (Id.disbursement (Id.campaign 1 "t" 5 0 1) 2 0 "m" 1)
          0]).disbursements
      (Id.disbursement (Id.campaign 1 "t" 5 0 1) 2 0 "m" 1)).map (fun d => d.status) =
      some DisbursementStatus.Executed ∧
    (lookupA (runOps [Op.init_platform 9 200,
        Op.create_campaign 1 "t" "d" 5 30 "c" "l" 0,
        Op.create_disbursement (Id.campaign 1 "t" 5 0 1) 2 0 "m" 0,
        Op.approve_disbursement (Id.disbursement (Id.campaign 1 "t" 5 0 1) 2 0 "m" 1),
        Op.execute_disbursement (Id.disbursement (Id.campaign 1 "t" 5 0 1) 2 0 "m" 1) 0,
        Op.approve_disbursement
          (Id.disbursement (Id.campaign 1 "t" 5 0 1) 2 0 "m" 1)]).disbursements
      (Id.disbursement (Id.campaign 1 "t" 5 0 1) 2 0 "m" 1)).map (fun d => d.status) =
      some DisbursementStatus.Approved ∧
    (lookupA (runOps [Op.init_platform 9 200,
        Op.create_campaign 1 "t" "d" 5 30 "c" "l" 0,
        Op.create_disbursement (Id.campaign 1 "t" 5 0 1) 2 0 "m" 0,
        Op.approve_disbursement (Id.disbursement (Id.campaign 1 "t" 5 0 1) 2 0 "m" 1),
        Op.execute_disbursement (Id.disbursement (Id.campaign 1 "t" 5 0 1) 2 0 "m" 1) 0,
        Op.approve_disbursement (Id.disbursement (Id.campaign 1 "t" 5 0 1) 2 0 "m" 1),
        Op.execute_disbursement (Id.disbursement (Id.campaign 1 "t" 5 0 1) 2 0 "m" 1)
          7]).disbursements
      (Id.disbursement (Id.campaign 1 "t" 5 0 1) 2 0 "m" 1)).map
        (fun d => d.executed_at) = some (some 7) := by
  refine ⟨by decide, by decide, by decide⟩

/-- C1 amended: Executed is terminal under execute_disbursement alone — no
sequence of execute_disbursement calls changes an Executed disbursement
(re-execution fails NotApproved) — but approve_disbursement sets the status
of any existing disbursement to Approved unconditionally, including one
already Executed, so a disbursement can re-enter Approved after Executed
and then be executed again. -/
theorem claim_C1_executed_terminality :
    (∀ (l : List (Id × Nat)) (s : ContractState) (did : Id) (d : Disbursement),
      lookupA s.disbursements did = some d →
      d.status = DisbursementStatus.Executed →
      lookupA (l.foldl (fun st p => (execute_disbursement p.1 p.2 st).2) s).disbursements
        did = some d) ∧
    (∀ (s : ContractState) (did : Id) (d : Disbursement) (a : Addr),
      s.admin = some a → lookupA s.disbursements did = some d →
      approve_disbursement did s = (Except.ok (), { s with
        disbursements := insertA s.disbursements did { d with status := .Approved } })) := by
  constructor
  · intro l
    induction l with
    | nil =>
      intro s did d hd hex
      exact hd
    | cons p rest ih =>
      intro s did d hd hex
      exact ih _ did d (execute_preserves_executed p.1 p.2 hd hex) hex
  · intro s did d a ha hd
    unfold approve_disbursement
    simp only [ha, hd]

/-- Witness for the amended C1: re-approving the concrete Executed
disbursement succeeds and rewrites its status to Approved. -/
theorem claim_C1_executed_terminality_witness :
    approve_disbursement (Id.disbursement (Id.campaign 1 "t" 5 0 1) 2 0 "m" 1)
      (runOps [Op.init_platform 9 200, Op.create_campaign 1 "t" "d" 5 30 "c" "l" 0,
        Op.create_disbursement (Id.campaign 1 "t" 5 0 1) 2 0 "m" 0,
        Op.approve_disbursement (Id.disbursement (Id.campaign 1 "t" 5 0 1) 2 0 "m" 1),
        Op.execute_disbursement (Id.disbursement (Id.campaign 1 "t" 5 0 1) 2 0 "m" 1) 0]) =
    (Except.ok (), {
      runOps [Op.init_platform 9 200, Op.create_campaign 1 "t" "d" 5 30 "c" "l" 0,
        Op.create_disbursement (Id.campaign 1 "t" 5 0 1) 2 0 "m" 0,
        Op.approve_disbursement (Id.disbursement (Id.campaign 1 "t" 5 0 1) 2 0 "m" 1),
        Op.execute_disbursement (Id.disbursement (Id.campaign 1 "t" 5 0 1) 2 0 "m" 1) 0] with
      disbursements := insertA
        (runOps [Op.init_platform 9 200, Op.create_campaign 1 "t" "d" 5 30 "c" "l" 0,
          Op.create_disbursement (Id.campaign 1 "t" 5 0 1) 2 0 "m" 0,
          Op.approve_disbursement (Id.disbursement (Id.campaign 1 "t" 5 0 1) 2 0 "m" 1),
          Op.execute_disbursement (Id.disbursement (Id.campaign 1 "t" 5 0 1) 2 0 "m" 1)
            0]).disbursements
        (Id.disbursement (Id.campaign 1 "t" 5 0 1) 2 0 "m" 1)
        { id := Id.disbursement (Id.campaign 1 "t" 5 0 1) 2 0 "m" 1,
          campaign_id := Id.campaign 1 "t" 5 0 1, recipient := 2, amount := 0,
          milestone := "m", status := .Approved, created_at := 0,
          executed_at := some 0 } }) :=
  claim_C1_executed_terminality.2
    (runOps [Op.init_platform 9 200, Op.create_campaign 1 "t" "d" 5 30 "c" "l" 0,
      Op.create_disbursement (Id.campaign 1 "t" 5 0 1) 2 0 "m" 0,
      Op.approve_disbursement (Id.disbursement (Id.campaign 1 "t" 5 0 1) 2 0 "m" 1),
      Op.execute_disbursement (Id.disbursement (Id.campaign 1 "t" 5 0 1) 2 0 "m" 1) 0])
    (Id.disbursement (Id.campaign 1 "t" 5 0 1) 2 0 "m" 1)
    { id := Id.disbursement (Id.campaign 1 "t" 5 0 1) 2 0 "m" 1,
      campaign_id := Id.campaign 1 "t" 5 0 1, recipient := 2, amount := 0,
      milestone := "m", status := .Executed, created_at := 0, executed_at := some 0 }
    9 (by decide) (by decide)

/-- Existing campaigns keep their current_amount under every invocation
other than donate, in any state satisfying the bookkeeping invariant. -/
theorem current_amount_frame {s : ContractState} (hInv : Inv s) (op : Op)
    (hnd : isDonateOp op = false) {k : Id} {camp : Campaign}
    (hk : lookupA s.campaigns k = some camp) :
    ∃ camp2, lookupA (applyOp s op).campaigns k = some camp2 ∧
      camp2.current_amount = camp.current_amount := by
  cases op with
  | init_platform a f =>
    rw [applyOp_init, (init_platform_frame a f s).1]
    exact ⟨camp, hk, rfl⟩
  | donate cid donor amount anon mn now => simp [isDonateOp] at hnd
  | create_campaign b t d g dur c l now =>
    rw [applyOp_create_campaign]
    cases hE : create_campaign b t d g dur c l now s with
    | mk res s2 =>
      cases res with
      | error e =>
        show ∃ camp2, lookupA s2.campaigns k = some camp2 ∧
          camp2.current_amount = camp.current_amount
        rw [create_campaign_error hE]
        exact ⟨camp, hk, rfl⟩
      | ok cid =>
        show ∃ camp2, lookupA s2.campaigns k = some camp2 ∧
          camp2.current_amount = camp.current_amount
        obtain ⟨hg2, hdur, hin, heq⟩ := create_campaign_ok_inv hE
        have h2 : s2 = (create_campaign_commit b t d g dur c l now s).2 :=
          congrArg Prod.snd heq
        rw [h2, (create_campaign_commit_spec b t d g dur c l now s).2.1, lookupA_insertA]
        have hne : ¬ k = Id.campaign b t g now (s.campaignCounter.getD 0 + 1) :=
          fun he => campaign_key_fresh hInv.2.2.2 b t g now (k, camp)
            (lookupA_some_mem hk) he
        rw [if_neg hne]
        exact ⟨camp, hk, rfl⟩
  | verify_campaign cid ts =>
    rw [applyOp_verify]
    cases hE : verify_campaign cid ts s with
    | mk res s2 =>
      cases res with
      | error e =>
        show ∃ camp2, lookupA s2.campaigns k = some camp2 ∧
          camp2.current_amount = camp.current_amount
        rw [verify_campaign_error hE]
        exact ⟨camp, hk, rfl⟩
      | ok u =>
        show ∃ camp2, lookupA s2.campaigns k = some camp2 ∧
          camp2.current_amount = camp.current_amount
        obtain ⟨a, campaign2, ha, hc2, hs2⟩ := verify_campaign_ok_inv hE
        rw [hs2]
        show ∃ camp2, lookupA (insertA s.campaigns cid
          { campaign2 with verified := true, trust_score := min ts 100 }) k = some camp2 ∧
          camp2.current_amount = camp.current_amount
        rw [lookupA_insertA]
        by_cases hkc : k = cid
        · rw [if_pos hkc]
          refine ⟨_, rfl, ?_⟩
          show campaign2.current_amount = camp.current_amount
          rw [hkc] at hk
          rw [Option.some.inj (hk.symm.trans hc2)]
        · rw [if_neg hkc]
          exact ⟨camp, hk, rfl⟩
  | create_disbursement cid r amount m now =>
    rw [applyOp_create_disbursement, (create_disbursement_frame cid r amount m now s).1]
    exact ⟨camp, hk, rfl⟩
  | approve_disbursement did =>
    rw [applyOp_approve, (approve_frame did s).1]
    exact ⟨camp, hk, rfl⟩
  | execute_disbursement did now =>
    rw [applyOp_execute, (execute_frame did now s).1]
    exact ⟨camp, hk, rfl⟩
  | close_campaign cid =>
    rw [applyOp_close]
    cases hE : close_campaign cid s with
    | mk res s2 =>
      cases res with
      | error e =>
        show ∃ camp2, lookupA s2.campaigns k = some camp2 ∧
          camp2.current_amount = camp.current_amount
        rw [close_campaign_error hE]
        exact ⟨camp, hk, rfl⟩
      | ok u =>
        show ∃ camp2, lookupA s2.campaigns k = some camp2 ∧
          camp2.current_amount = camp.current_amount
        obtain ⟨campaign2, hc2, hact, hs2⟩ := close_campaign_ok_inv hE
        rw [hs2]
        show ∃ camp2, lookupA (insertA s.campaigns cid
          { campaign2 with active := false }) k = some camp2 ∧
          camp2.current_amount = camp.current_amount
        rw [lookupA_insertA]
        by_cases hkc : k = cid
        · rw [if_pos hkc]
          refine ⟨_, rfl, ?_⟩
          show campaign2.current_amount = camp.current_amount
          rw [hkc] at hk
          rw [Option.some.inj (hk.symm.trans hc2)]
        · rw [if_neg hkc]
          exact ⟨camp, hk, rfl⟩

/-- A successful donate credits the campaign with exactly the net amount it
stores in the new Donation record. -/
theorem donate_adds_net {s : ContractState} {cid : Id} {donor : Addr} {amount : Nat}
    {anon mn : Bool} {now : Nat} {did : Id} {s2 : ContractState}
    (h : donate cid donor amount anon mn now s = (Except.ok did, s2)) :
    ∃ camp camp2 dn, lookupA s.campaigns cid = some camp ∧
      lookupA s2.campaigns cid = some camp2 ∧ lookupA s2.donations did = some dn ∧
      camp2.current_amount = camp.current_amount + dn.amount := by
  obtain ⟨campaign, hc, hact, hend, hz, hdid, hs2⟩ := donate_ok_inv h
  subst hdid
  obtain ⟨sc, sd, sts, sdc, scc, sa, spf, sdb⟩ :=
    donate_commit_spec cid donor amount anon mn now campaign s
  refine ⟨campaign,
    { campaign with current_amount :=
        campaign.current_amount + (amount - amount * s.platformFee.getD 200 / 10000) },
    { id := Id.donation cid donor amount now (s.donationCounter.getD 0 + 1),
      campaign_id := cid, donor := donor,
      amount := amount - amount * s.platformFee.getD 200 / 10000, timestamp := now,
      nft_minted := mn, anonymous := anon },
    hc, ?_, ?_, rfl⟩
  · rw [hs2, sc, lookupA_insertA, if_pos rfl]
  · rw [hs2, sd, lookupA_insertA, if_pos rfl]

/-- C3 amended: in every state reached by a trace in which the initializer
never runs after a create_campaign or donate call (so the id counters are
never reset while records carrying them exist), each campaign's
current_amount equals the sum of the stored Donation amounts referencing
it; every invocation other than donate preserves the current_amount of
every existing campaign; and donate credits exactly the net amount it
stores in the new Donation record. -/
theorem claim_C3_sum_invariant (ops : List Op) (hg : goodTrace ops = true) :
    (∀ k camp, lookupA (runOps ops).campaigns k = some camp →
      camp.current_amount = dsum (runOps ops).donations k) ∧
    (∀ op, isDonateOp op = false → ∀ k camp,
      lookupA (runOps ops).campaigns k = some camp →
      ∃ camp2, lookupA (applyOp (runOps ops) op).campaigns k = some camp2 ∧
        camp2.current_amount = camp.current_amount) ∧
    (∀ cid donor amount anon mn now did s2,
      donate cid donor amount anon mn now (runOps ops) = (Except.ok did, s2) →
      ∃ camp camp2 dn, lookupA (runOps ops).campaigns cid = some camp ∧
        lookupA s2.campaigns cid = some camp2 ∧ lookupA s2.donations did = some dn ∧
        camp2.current_amount = camp.current_amount + dn.amount) := by
  have hInv := inv_runOps hg
  exact ⟨hInv.1, fun op hnd k camp hk => current_amount_frame hInv op hnd hk,
    fun cid donor amount anon mn now did s2 h => donate_adds_net h⟩

/-- Counterexample to C3 as stated over all reachable states: donate works
before initialization (C9), the initializer then resets the donation
counter, and a second donation with identical campaign, donor, amount and
timestamp hashes to the identical donation id, overwriting the first
Donation record while current_amount is credited twice: the campaign holds
1960 but its donation records sum to 980.  The trace violates the goodTrace
side condition of the amendment. -/
theorem claim_C3_sum_invariant_counterexample :
    goodTrace [Op.create_campaign 1 "t" "d" 5 30 "c" "l" 0,
      Op.donate (Id.campaign 1 "t" 5 0 1) 2 1000 false false 0,
      Op.init_platform 9 200,
      Op.donate (Id.campaign 1 "t" 5 0 1) 2 1000 false false 0] = false ∧
    (lookupA (runOps [Op.create_campaign 1 "t" "d" 5 30 "c" "l" 0,
        Op.donate (Id.campaign 1 "t" 5 0 1) 2 1000 false false 0,
        Op.init_platform 9 200,
        Op.donate (Id.campaign 1 "t" 5 0 1) 2 1000 false false 0]).campaigns
      (Id.campaign 1 "t" 5 0 1)).map (fun c => c.current_amount) = some 1960 ∧
    dsum (runOps [Op.create_campaign 1 "t" "d" 5 30 "c" "l" 0,
        Op.donate (Id.campaign 1 "t" 5 0 1) 2 1000 false false 0,
        Op.init_platform 9 200,
        Op.donate (Id.campaign 1 "t" 5 0 1) 2 1000 false false 0]).donations
      (Id.campaign 1 "t" 5 0 1) = 980 ∧
    (1960 : Nat) ≠ 980 := by
  refine ⟨by decide, by decide, by decide, by decide⟩

/-- Witness for the amended C3 on a concrete good trace: after init, create
and one 1000 donation the campaign holds 980, the sum of its donation
records. -/
theorem claim_C3_sum_invariant_witness :
    ({ id := Id.campaign 1 "t" 5 0 1, title := "t", description := "d",
       beneficiary := 1, goal_amount := 5, current_amount := 980, start_time := 0,
       end_time := 2592000, verified := false, trust_score := 0, category := "c",
       location := "l", active := true } : Campaign).current_amount =
      dsum (runOps [Op.init_platform 9 200, Op.create_campaign 1 "t" "d" 5 30 "c" "l" 0,
        Op.donate (Id.campaign 1 "t" 5 0 1) 2 1000 false false 0]).donations
        (Id.campaign 1 "t" 5 0 1) :=
  (claim_C3_sum_invariant
    [Op.init_platform 9 200, Op.create_campaign 1 "t" "d" 5 30 "c" "l" 0,
      Op.donate (Id.campaign 1 "t" 5 0 1) 2 1000 false false 0] (by decide)).1
    (Id.campaign 1 "t" 5 0 1)
    { id := Id.campaign 1 "t" 5 0 1, title := "t", description := "d",
      beneficiary := 1, goal_amount := 5, current_amount := 980, start_time := 0,
      end_time := 2592000, verified := false, trust_score := 0, category := "c",
      location := "l", active := true } (by decide)

end Savia
